import Mathlib

/-!
Verification of the `cloudctl` dashboard subsystem (`cmd/dashboard.go`).

This file gives a shallow embedding of the dashboard's data model and render
operations and proves properties about them.

Modelling conventions:
* Go pointers (`*T`) become `Option T`; dereferencing a `nil` pointer is a
  panic, which render functions surface as an explicit `panicked` outcome.
* Generated API array fields (`[]*T`) become `List (Option T)`; a `nil` entry
  dereferenced by the code is a panic.
* Timestamps: the code parses RFC3339 strings with `time.Parse` and only uses
  the parsed instant (comparison via `Time.After`) or the parse failure
  (record skipped).  A timestamp field is therefore embedded as its parse
  result `Option Int` (`none` = field missing or unparseable), and instants
  are integers.
* Machine integers (`int`, `int64`) are embedded as `Int`; none of the
  dashboard's arithmetic can overflow observably in the claims below.
* `float64` values coming from the API (storage statistics) are embedded as
  `Rat`; no claim in this development relies on a float-rounding result.
  (Note `Rat` division by zero yields `0` whereas Go would produce `NaN`;
  no theorem below asserts anything about a value computed through a zero
  denominator.)
* `sort.Slice` is the Go standard library and not part of this repository;
  it is embedded as an arbitrary function parameter together with its
  documented contract: the result is a permutation of the input, ordered by
  the comparator; the documentation explicitly does *not* guarantee
  stability ("The sort is not guaranteed to be stable").
* Widget drawing (`ui.Render`) is an external terminal-library effect; the
  observable widget state (chart `Data`, gauge `Percent`, table `Rows`,
  paragraph `Text`) is modelled explicitly and claims are stated over it.
-/

/-! ### External string constants

Enumeration constants from the imported libraries, as used by the switch
statements in `cmd/dashboard.go`. -/

/-- `v1beta1.LastOperationStateSucceeded` -/
def lastOperationStateSucceeded : String := "Succeeded"

/-- `v1beta1.LastOperationStateProcessing` -/
def lastOperationStateProcessing : String := "Processing"

/-- `v1beta1.ConditionTrue` -/
def conditionTrue : String := "True"

/-- `v1beta1.ConditionProgressing` -/
def conditionProgressing : String := "Progressing"

/-- `v1beta1.ShootControlPlaneHealthy` -/
def shootControlPlaneHealthy : String := "ControlPlaneHealthy"

/-- `v1beta1.ShootEveryNodeReady` -/
def shootEveryNodeReady : String := "EveryNodeReady"

/-- `v1beta1.ShootSystemComponentsHealthy` -/
def shootSystemComponentsHealthy : String := "SystemComponentsHealthy"

/-- `v1beta1.ShootAPIServerAvailable` -/
def shootAPIServerAvailable : String := "APIServerAvailable"

/-- `durosv2.Volume_Available.String()` -/
def volumeStateAvailable : String := "Available"

/-- `durosv2.Volume_Failed.String()` -/
def volumeStateFailed : String := "Failed"

/-- `durosv2.Volume_Unknown.String()` -/
def volumeStateUnknown : String := "Unknown"

/-- `durosv2.ProtectionStateEnum_FullyProtected.String()` -/
def protFullyProtected : String := "FullyProtected"

/-- `durosv2.ProtectionStateEnum_Degraded.String()` -/
def protDegraded : String := "Degraded"

/-- `durosv2.ProtectionStateEnum_ReadOnly.String()` -/
def protReadOnly : String := "ReadOnly"

/-- `durosv2.ProtectionStateEnum_NotAvailable.String()` -/
def protNotAvailable : String := "NotAvailable"

/-- `durosv2.ProtectionStateEnum_Unknown.String()` -/
def protUnknown : String := "Unknown"

/-- `durosv2.ClusterHealth_OK.String()` -/
def storHealthOK : String := "OK"

/-- `durosv2.ClusterHealth_Error.String()` -/
def storHealthError : String := "Error"

/-- `durosv2.ClusterHealth_Warning.String()` -/
def storHealthWarning : String := "Warning"

/-- `durosv2.ClusterHealth_None.String()` -/
def storHealthNone : String := "None"

/-- `durosv2.Server_Enabled.String()` -/
def serverEnabled : String := "Enabled"

/-- `durosv2.Server_Disabled.String()` -/
def serverDisabled : String := "Disabled"

/-- `durosv2.Server_Failed.String()` -/
def serverFailed : String := "Failed"

/-- `http.StatusForbidden` -/
def statusForbidden : Int := 403

/-! ### Errors -/

/-- A Go `error` value as distinguished by the dashboard code: either a plain
error, or the typed `volume.ClusterInfoDefault` error carrying an HTTP status
code (the dashboard checks it with `errors.As` and `.Code()`). -/
inductive GoErr where
  | simple (msg : String)
  | clusterInfoDefault (code : Int) (msg : String)
deriving DecidableEq, Repr

/-! ### Cluster API data model (`models.V1ClusterResponse`, as dereferenced by
`dashboardClusterPane.Render`) -/

structure V1ClusterLastOperation where
  State : Option String
deriving DecidableEq, Repr

structure V1ClusterCondition where
  Status : Option String
  Type_ : Option String
  Message : Option String
  /-- `LastUpdateTime` is an RFC3339 string; embedded as its parse result. -/
  LastUpdateTime : Option Int
deriving DecidableEq, Repr

structure V1ClusterLastError where
  Description : Option String
  /-- `LastUpdateTime` is an RFC3339 string; embedded as its parse result. -/
  LastUpdateTime : Option Int
deriving DecidableEq, Repr

structure V1ClusterStatus where
  LastOperation : Option V1ClusterLastOperation
  Conditions : List (Option V1ClusterCondition)
  LastErrors : List (Option V1ClusterLastError)
deriving DecidableEq, Repr

structure V1ClusterResponse where
  Name : Option String
  Status : Option V1ClusterStatus
deriving DecidableEq, Repr

/-! ### Cluster classification (`dashboardClusterPane.Render`, loop body) -/

/-- The dereference chain `c.Status.LastOperation.State`. -/
def clusterOpState (c : V1ClusterResponse) : Option String :=
  c.Status.bind fun st => st.LastOperation.bind fun op => op.State

/-- The guard `c.Status == nil || c.Status.LastOperation == nil ||
c.Status.LastOperation.State == nil || *c.Status.LastOperation.State == ""`:
such a cluster is counted unhealthy and its conditions/last errors are not
visited (`continue`). -/
def clusterMissingState (c : V1ClusterResponse) : Bool :=
  match clusterOpState c with
  | none => true
  | some st => st == ""

/-- Conditions list of a cluster (empty when `Status` is nil; the code never
reaches the conditions loop in that case). -/
def clusterConditions (c : V1ClusterResponse) : List (Option V1ClusterCondition) :=
  match c.Status with
  | none => []
  | some st => st.Conditions

/-- Last-errors list of a cluster (empty when `Status` is nil). -/
def clusterLastErrorsOf (c : V1ClusterResponse) : List (Option V1ClusterLastError) :=
  match c.Status with
  | none => []
  | some st => st.LastErrors

/-- The three buckets of the cluster operation bar chart. -/
inductive ClusterOpBucket where
  | succeeded
  | processing
  | unhealthy
deriving DecidableEq, Repr

/-- Classification of one cluster record into the operation histogram:
missing or empty state is unhealthy, then the `switch` on the state string
with `default: unhealthy++`. -/
def clusterOpBucket (c : V1ClusterResponse) : ClusterOpBucket :=
  match clusterOpState c with
  | none => .unhealthy
  | some st =>
    if st == "" then .unhealthy
    else if st == lastOperationStateSucceeded then .succeeded
    else if st == lastOperationStateProcessing then .processing
    else .unhealthy

/-- Histogram count for one bucket over the fetched list (nil entries
contribute nothing here; the render panics on them beforehand). -/
def countClusterBucket (cs : List (Option V1ClusterResponse)) (b : ClusterOpBucket) : Nat :=
  cs.countP fun oc =>
    match oc with
    | none => false
    | some c => clusterOpBucket c == b

/-- Does this condition entry count towards the healthy-condition counter of
the given type?  (Entry present, `Status` and `Type` present, status `True`
or `Progressing`, matching type.) -/
def conditionCountedOK (ty : String) (oc : Option V1ClusterCondition) : Bool :=
  match oc with
  | none => false
  | some cond =>
    match cond.Status, cond.Type_ with
    | some st, some t => (st == conditionTrue || st == conditionProgressing) && t == ty
    | _, _ => false

/-- Healthy-condition contribution of one fetched entry for a condition type
(a cluster that fails the state guard is skipped by `continue` before its
conditions are visited). -/
def clusterCondOKEntry (ty : String) (oc : Option V1ClusterResponse) : Nat :=
  match oc with
  | none => 0
  | some c =>
    if clusterMissingState c then 0
    else (clusterConditions c).countP (conditionCountedOK ty)

/-- Total healthy-condition counter (`apiOK`, `controlOK`, `nodesOK`,
`systemOK`) for a condition type. -/
def clusterCondOKCount (ty : String) (cs : List (Option V1ClusterResponse)) : Nat :=
  (cs.map (clusterCondOKEntry ty)).sum

/-- `dashboardClusterError`: one row record for the problem/error tables. -/
structure DashboardClusterError where
  ClusterName : String
  ErrorMessage : String
  Time : Int
deriving DecidableEq, Repr

/-- A condition whose status is neither `True` nor `Progressing` becomes a
problem-table record, provided cluster name, message and a parseable
timestamp are present (otherwise it is silently skipped). -/
def conditionProblem (name : Option String) (oc : Option V1ClusterCondition) :
    Option DashboardClusterError :=
  match oc with
  | none => none
  | some cond =>
    match cond.Status, cond.Type_ with
    | some st, some ty =>
      if st == conditionTrue || st == conditionProgressing then none
      else
        match name, cond.Message, cond.LastUpdateTime with
        | some n, some msg, some t => some ⟨n, "(" ++ ty ++ ") " ++ msg, t⟩
        | _, _, _ => none
    | _, _ => none

/-- A `LastError` entry becomes a last-errors-table record, provided cluster
name, description and a parseable timestamp are present. -/
def lastErrorProblem (name : Option String) (oe : Option V1ClusterLastError) :
    Option DashboardClusterError :=
  match oe with
  | none => none
  | some e =>
    match name, e.Description, e.LastUpdateTime with
    | some n, some d, some t => some ⟨n, d, t⟩
    | _, _, _ => none

/-- `clusterErrors` collected in fetch order (clusters failing the state
guard are skipped wholesale by `continue`). -/
def collectClusterErrors (cs : List (Option V1ClusterResponse)) :
    List DashboardClusterError :=
  cs.flatMap fun oc =>
    match oc with
    | none => []
    | some c =>
      if clusterMissingState c then []
      else (clusterConditions c).filterMap (conditionProblem c.Name)

/-- `lastErrors` collected in fetch order. -/
def collectLastErrors (cs : List (Option V1ClusterResponse)) :
    List DashboardClusterError :=
  cs.flatMap fun oc =>
    match oc with
    | none => []
    | some c =>
      if clusterMissingState c then []
      else (clusterLastErrorsOf c).filterMap (lastErrorProblem c.Name)

/-- Conditions under which the Go loop body dereferences a nil pointer and
panics: a nil cluster entry (`c.Status` on nil `c`), or a nil entry in
`Status.LastErrors` (`e.Description` on nil `e`; only reached when the state
guard passed, since `continue` skips the loop otherwise). -/
def clusterEntryPanics (oc : Option V1ClusterResponse) : Bool :=
  match oc with
  | none => true
  | some c =>
    !clusterMissingState c && (clusterLastErrorsOf c).any fun oe => oe.isNone

/-! ### Cluster pane state and render -/

/-- The widget state owned by `dashboardClusterPane` that `Render` mutates:
bar-chart data, gauge percentages, table rows.  Chart data holds the integer
counts that the code stores as `float64` (exact for these magnitudes). -/
structure ClusterPaneState where
  clusterHealthData : List Nat
  clusterStatusAPIPercent : Int
  clusterStatusControlPercent : Int
  clusterStatusNodesPercent : Int
  clusterStatusSystemPercent : Int
  clusterProblemsRows : List (List String)
  clusterLastErrorsRows : List (List String)
deriving DecidableEq, Repr

/-- Outcome of one `dashboardClusterPane.Render` call: normal return with the
new widget state and the returned error, or a runtime panic (widget state at
the moment of the panic; all widget mutations happen after the loop, so a
panicking render leaves the state unchanged). -/
inductive ClusterPaneResult where
  | ok (s : ClusterPaneState) (err : Option GoErr)
  | panicked (s : ClusterPaneState)
deriving DecidableEq, Repr

def ClusterPaneResult.stateOf : ClusterPaneResult → ClusterPaneState
  | .ok s _ => s
  | .panicked s => s

def ClusterPaneResult.isPanic : ClusterPaneResult → Bool
  | .ok _ _ => false
  | .panicked _ => true

def ClusterPaneResult.errOf : ClusterPaneResult → Option GoErr
  | .ok _ e => e
  | .panicked _ => none

/-- Table rows built from problem records: `[]string{e.ClusterName, e.ErrorMessage}`. -/
def problemRows (recs : List DashboardClusterError) : List (List String) :=
  recs.map fun e => [e.ClusterName, e.ErrorMessage]

/-- The widget mutations of a successful `dashboardClusterPane.Render` pass
over a non-empty fetched list: bar chart (skipped if all buckets are zero),
both sorted tables, then the four gauges. -/
def clusterWidgetsUpdate (sortFn : List DashboardClusterError → List DashboardClusterError)
    (clusters : List (Option V1ClusterResponse)) (s : ClusterPaneState) : ClusterPaneState :=
  let succeeded := countClusterBucket clusters .succeeded
  let processing := countClusterBucket clusters .processing
  let unhealthy := countClusterBucket clusters .unhealthy
  -- "for some reason the UI hangs when all values are zero..."
  let s1 :=
    if succeeded > 0 || processing > 0 || unhealthy > 0 then
      { s with clusterHealthData := [succeeded, processing, unhealthy] }
    else s
  let s2 := { s1 with
    clusterProblemsRows := problemRows (sortFn (collectClusterErrors clusters)) }
  let s3 := { s2 with
    clusterLastErrorsRows := problemRows (sortFn (collectLastErrors clusters)) }
  { s3 with
    clusterStatusAPIPercent :=
      (clusterCondOKCount shootAPIServerAvailable clusters : Int) * 100 / (clusters.length : Int)
    clusterStatusControlPercent :=
      (clusterCondOKCount shootControlPlaneHealthy clusters : Int) * 100 / (clusters.length : Int)
    clusterStatusNodesPercent :=
      (clusterCondOKCount shootEveryNodeReady clusters : Int) * 100 / (clusters.length : Int)
    clusterStatusSystemPercent :=
      (clusterCondOKCount shootSystemComponentsHealthy clusters : Int) * 100 / (clusters.length : Int) }

/-- `dashboardClusterPane.Render`.

* `sortFn` stands for the standard library `sort.Slice` with the comparator
  `Time.After` (descending time); see the module comment.
* `locked` is true when the pane's render semaphore is already held; the
  `TryAcquire` then fails and the render returns immediately.
* `findClustersResp` is the outcome of the `FindClusters` API call. -/
def clusterPaneRender (sortFn : List DashboardClusterError → List DashboardClusterError)
    (locked : Bool) (findClustersResp : Except GoErr (List (Option V1ClusterResponse)))
    (s : ClusterPaneState) : ClusterPaneResult :=
  if locked then .ok s none
  else
    match findClustersResp with
    | .error e => .ok s (some e)
    | .ok clusters =>
      if clusters.any clusterEntryPanics then .panicked s
      else if clusters.length = 0 then .ok s none
      else .ok (clusterWidgetsUpdate sortFn clusters s) none

/-! ### Volume API data model (`models.V1VolumeResponse`,
`models.V1StorageClusterInfo`, as dereferenced by
`dashboardVolumePane.Render`) -/

structure V1VolumeStatistics where
  PhysicalUsedStorage : Option Int
deriving DecidableEq, Repr

structure V1VolumeResponse where
  State : Option String
  ProtectionState : Option String
  Statistics : Option V1VolumeStatistics
deriving DecidableEq, Repr

structure DurosHealth where
  State : Option String
deriving DecidableEq, Repr

structure DurosServer where
  State : Option String
deriving DecidableEq, Repr

structure V1StorageClusterStatistics where
  FreePhysicalStorage : Option Int
  PhysicalUsedStorage : Option Int
  CompressionRatio : Option Rat
deriving DecidableEq, Repr

structure V1StorageClusterInfo where
  Health : Option DurosHealth
  Servers : List (Option DurosServer)
  Statistics : Option V1StorageClusterStatistics
deriving DecidableEq, Repr

/-! ### Volume classification -/

/-- Buckets of the volume state bar chart. -/
inductive VolStateBucket where
  | available
  | failed
  | unknown
  | other
deriving DecidableEq, Repr

/-- Buckets of the volume protection state bar chart. -/
inductive VolProtBucket where
  | fullyProtected
  | degraded
  | readOnly
  | notAvailable
  | unknown
deriving DecidableEq, Repr

/-- Volume state classification.  The code guards `v.State == nil ||
v.ProtectionState == nil` in a single coupled check: if either field is
missing the volume goes to `Other` (and to protection `Unknown`) and the
present field is ignored. -/
def volStateBucket (v : V1VolumeResponse) : VolStateBucket :=
  match v.State, v.ProtectionState with
  | some st, some _ =>
    if st == volumeStateAvailable then .available
    else if st == volumeStateFailed then .failed
    else if st == volumeStateUnknown then .unknown
    else .other
  | _, _ => .other

/-- Volume protection state classification (same coupled nil-guard; the
explicit `Unknown` case and the `default` case both land in `Unknown`). -/
def volProtBucket (v : V1VolumeResponse) : VolProtBucket :=
  match v.State, v.ProtectionState with
  | some _, some ps =>
    if ps == protFullyProtected then .fullyProtected
    else if ps == protDegraded then .degraded
    else if ps == protReadOnly then .readOnly
    else if ps == protNotAvailable then .notAvailable
    else if ps == protUnknown then .unknown
    else .unknown
  | _, _ => .unknown

def countVolState (vs : List (Option V1VolumeResponse)) (b : VolStateBucket) : Nat :=
  vs.countP fun ov =>
    match ov with
    | none => false
    | some v => volStateBucket v == b

def countVolProt (vs : List (Option V1VolumeResponse)) (b : VolProtBucket) : Nat :=
  vs.countP fun ov =>
    match ov with
    | none => false
    | some v => volProtBucket v == b

/-- `volumesUsedPhysical` contribution of a single volume: the coupled
nil-guard `continue` also skips the statistics, and statistics whose
`PhysicalUsedStorage` is nil are skipped. -/
def volUsedPhysical (v : V1VolumeResponse) : Int :=
  match v.State, v.ProtectionState with
  | some _, some _ =>
    match v.Statistics with
    | none => 0
    | some st =>
      match st.PhysicalUsedStorage with
      | none => 0
      | some u => u
  | _, _ => 0

def sumVolUsedPhysical (vs : List (Option V1VolumeResponse)) : Int :=
  (vs.map fun ov =>
    match ov with
    | none => 0
    | some v => volUsedPhysical v).sum

/-! ### Storage cluster classification -/

/-- Buckets of the storage cluster state bar chart. -/
inductive StorClusterBucket where
  | ok
  | warning
  | error
  | other
deriving DecidableEq, Repr

/-- Buckets of the storage server state bar chart. -/
inductive ServerBucket where
  | enabled
  | disabled
  | failed
  | other
deriving DecidableEq, Repr

/-- The guard `c.Health == nil || c.Health.State == nil`; such a cluster is
counted `Other` and its servers and statistics are skipped (`continue`). -/
def storHealthPresent (c : V1StorageClusterInfo) : Bool :=
  match c.Health with
  | none => false
  | some h => h.State.isSome

def storClusterBucket (c : V1StorageClusterInfo) : StorClusterBucket :=
  match c.Health with
  | none => .other
  | some h =>
    match h.State with
    | none => .other
    | some st =>
      if st == storHealthOK then .ok
      else if st == storHealthError then .error
      else if st == storHealthWarning then .warning
      else if st == storHealthNone then .other
      else .other

def countStorCluster (cs : List (Option V1StorageClusterInfo)) (b : StorClusterBucket) : Nat :=
  cs.countP fun oc =>
    match oc with
    | none => false
    | some c => storClusterBucket c == b

/-- Server classification; a nil `State` is counted `Other`. -/
def serverBucket (sv : DurosServer) : ServerBucket :=
  match sv.State with
  | none => .other
  | some st =>
    if st == serverEnabled then .enabled
    else if st == serverDisabled then .disabled
    else if st == serverFailed then .failed
    else .other

/-- Server histogram count: servers are only visited for clusters that pass
the health guard. -/
def countServers (cs : List (Option V1StorageClusterInfo)) (b : ServerBucket) : Nat :=
  (cs.map fun oc =>
    match oc with
    | none => 0
    | some c =>
      if storHealthPresent c then
        c.Servers.countP fun os =>
          match os with
          | none => false
          | some sv => serverBucket sv == b
      else 0).sum

/-- Statistics contribution (free, used, compression ratio) of one storage
cluster: skipped when the health guard failed (`continue` before), when
`Statistics` is nil, or when any of the three fields is nil. -/
def storStatContribution (c : V1StorageClusterInfo) : Int × Int × Rat :=
  match c.Statistics with
  | none => (0, 0, 0)
  | some st =>
    match st.FreePhysicalStorage, st.PhysicalUsedStorage, st.CompressionRatio with
    | some f, some u, some r => (f, u, r)
    | _, _, _ => (0, 0, 0)

def sumStorStats (cs : List (Option V1StorageClusterInfo)) : Int × Int × Rat :=
  cs.foldl
    (fun acc oc =>
      match oc with
      | none => acc
      | some c =>
        if storHealthPresent c then
          let contrib := storStatContribution c
          (acc.1 + contrib.1, acc.2.1 + contrib.2.1, acc.2.2 + contrib.2.2)
        else acc)
    (0, 0, 0)

/-- Panic conditions of the storage-cluster loop: a nil cluster entry
(`c.Health` on nil `c`), or a nil server entry (`s.State` on nil `s`; only
reached when the health guard passed). -/
def storClusterEntryPanics (oc : Option V1StorageClusterInfo) : Bool :=
  match oc with
  | none => true
  | some c => storHealthPresent c && c.Servers.any fun os => os.isNone

/-! ### Volume pane state and render -/

/-- termui bar colors used by the free-physical-space gauge. -/
inductive UiColor where
  | red
  | yellow
  | green
deriving DecidableEq, Repr

/-- Go `int(x)` conversion of a float, truncation toward zero, on the `Rat`
embedding of `float64`. -/
def goFloatToInt (q : Rat) : Int :=
  if 0 ≤ q then q.floor else q.ceil

/-- The widget state owned by `dashboardVolumePane` that `Render` mutates. -/
structure VolumePaneState where
  volumeUsedSpaceText : String
  volumeStateData : List Nat
  volumeProtectionStateData : List Nat
  clusterStateData : List Nat
  serverStateData : List Nat
  physicalFreePercent : Int
  physicalFreeBarColor : UiColor
  compressionRatioPercent : Int
deriving DecidableEq, Repr

/-- Outcome of one `dashboardVolumePane.Render` call. -/
inductive VolumePaneResult where
  | ok (s : VolumePaneState) (err : Option GoErr)
  | panicked (s : VolumePaneState)
deriving DecidableEq, Repr

def VolumePaneResult.stateOf : VolumePaneResult → VolumePaneState
  | .ok s _ => s
  | .panicked s => s

def VolumePaneResult.isPanic : VolumePaneResult → Bool
  | .ok _ _ => false
  | .panicked _ => true

def VolumePaneResult.errOf : VolumePaneResult → Option GoErr
  | .ok _ e => e
  | .panicked _ => none

/-- The `ClusterInfo` call's forbidden-tolerant error handling: a
`ClusterInfoDefault` error with HTTP status 403 is swallowed and leaves
`infoResp == nil` (`none`); any other error is propagated. -/
def clusterInfoStep (clusterInfoResp : Except GoErr (List (Option V1StorageClusterInfo))) :
    Except GoErr (Option (List (Option V1StorageClusterInfo))) :=
  match clusterInfoResp with
  | .ok l => .ok (some l)
  | .error e =>
    match e with
    | .clusterInfoDefault code msg =>
      if code ≠ statusForbidden then .error (.clusterInfoDefault code msg)
      else .ok none
    | .simple msg => .error (.simple msg)

/-- The widget mutations of the volume section of a successful
`dashboardVolumePane.Render` pass: used-space paragraph, then the two volume
bar charts (each skipped if all of its buckets are zero). -/
def volumeChartsUpdate (humanize : Int → String)
    (volumes : List (Option V1VolumeResponse)) (s : VolumePaneState) : VolumePaneState :=
  let volumesAvailable := countVolState volumes .available
  let volumesFailed := countVolState volumes .failed
  let volumesUnknown := countVolState volumes .unknown
  let volumesOther := countVolState volumes .other
  let protFully := countVolProt volumes .fullyProtected
  let protDegr := countVolProt volumes .degraded
  let protRO := countVolProt volumes .readOnly
  let protNA := countVolProt volumes .notAvailable
  let protUnk := countVolProt volumes .unknown
  let s1 := { s with volumeUsedSpaceText :=
    "Summed up physical size of volumes: " ++ humanize (sumVolUsedPhysical volumes) }
  -- "for some reason the UI hangs when all values are zero..."
  let s2 :=
    if volumesAvailable > 0 || volumesFailed > 0 || volumesUnknown > 0 ||
        volumesOther > 0 then
      { s1 with volumeStateData :=
        [volumesAvailable, volumesFailed, volumesUnknown, volumesOther] }
    else s1
  if protFully > 0 || protDegr > 0 || protRO > 0 || protNA > 0 ||
      protUnk > 0 then
    { s2 with volumeProtectionStateData :=
      [protFully, protDegr, protRO, protNA, protUnk] }
  else s2

/-- The widget mutations of the storage-cluster (admin-only) section of a
successful `dashboardVolumePane.Render` pass: the two gauges, then the two
bar charts (each skipped if all of its buckets are zero). -/
def storageSectionUpdate (clusters : List (Option V1StorageClusterInfo))
    (s : VolumePaneState) : VolumePaneState :=
  let csOK := countStorCluster clusters .ok
  let csErr := countStorCluster clusters .error
  let csWarn := countStorCluster clusters .warning
  let csOther := countStorCluster clusters .other
  let svEnabled := countServers clusters .enabled
  let svDisabled := countServers clusters .disabled
  let svFailed := countServers clusters .failed
  let svOther := countServers clusters .other
  let stats := sumStorStats clusters
  let physicalFree := stats.1
  let physicalUsed := stats.2.1
  let compressionRatio := stats.2.2
  let crPercent := goFloatToInt ((compressionRatio / (clusters.length : Rat)) * 100)
  let s4 := { s with compressionRatioPercent := crPercent }
  let freePercent :=
    goFloatToInt (((physicalFree : Rat) /
      ((physicalFree + physicalUsed : Int) : Rat)) * 100)
  let s5 := { s4 with
    physicalFreePercent := freePercent
    physicalFreeBarColor :=
      if freePercent < 10 then .red
      else if freePercent < 30 then .yellow
      else .green }
  let s6 :=
    if csOK > 0 || csErr > 0 || csWarn > 0 || csOther > 0 then
      { s5 with clusterStateData := [csOK, csWarn, csErr, csOther] }
    else s5
  if svEnabled > 0 || svDisabled > 0 || svFailed > 0 || svOther > 0 then
    { s6 with serverStateData := [svEnabled, svDisabled, svFailed, svOther] }
  else s6

/-- `dashboardVolumePane.Render`.

* `humanize` stands for `helper.HumanizeSize` (an output-formatting helper
  that is not part of the dashboard core; no claim depends on its value).
* `locked` is true when the pane's render semaphore is already held.
* `findVolumesResp` is the outcome of the `FindVolumes` call,
  `clusterInfoResp` the outcome of the optional `ClusterInfo` call, issued in
  this order before the classification loops.  A `ClusterInfoDefault` error
  with HTTP status 403 (forbidden) is tolerated: the render continues with no
  storage-cluster data (`infoResp == nil`) and stops after the volume charts.
  Any other failure of either call is returned as the render's error. -/
def volumePaneRender (humanize : Int → String) (locked : Bool)
    (findVolumesResp : Except GoErr (List (Option V1VolumeResponse)))
    (clusterInfoResp : Except GoErr (List (Option V1StorageClusterInfo)))
    (s : VolumePaneState) : VolumePaneResult :=
  if locked then .ok s none
  else
    match findVolumesResp with
    | .error e => .ok s (some e)
    | .ok volumes =>
      match clusterInfoStep clusterInfoResp with
      | .error e => .ok s (some e)
      | .ok infoOpt =>
        if volumes.any (fun ov => ov.isNone) then .panicked s
        else
          let s3 := volumeChartsUpdate humanize volumes s
          match infoOpt with
          | none => .ok s3 none -- for non-admins, we stop here
          | some clusters =>
            if clusters.length = 0 then .ok s3 none
            else if clusters.any storClusterEntryPanics then .panicked s3
            else .ok (storageSectionUpdate clusters s3) none

/-! ### Controller data model (`dashboard`, `dashboard.Render`) -/

/-- `rest.HealthStatusHealthy` (metal-lib) -/
def healthStatusHealthy : String := "healthy"

/-- `rest.HealthStatusDegraded` (metal-lib) -/
def healthStatusDegraded : String := "degraded"

/-- `rest.HealthStatusPartiallyUnhealthy` (metal-lib) -/
def healthStatusPartiallyUnhealthy : String := "partially-unhealthy"

/-- `rest.HealthStatusUnhealthy` (metal-lib) -/
def healthStatusUnhealthy : String := "unhealthy"

/-- `v.Version` (metal-stack version stamp, injected at link time). -/
def cloudctlVersion : String := "devel"

/-- `v.GitSHA1` (metal-stack version stamp, injected at link time). -/
def cloudctlGitSHA1 : String := "unknown"

/-- `models.RestVersion` success payload of the `Version.Info` call
(`Version` is schema-required but the generated client does not validate
responses, so the field can still be absent). -/
structure RestVersion where
  Version : Option String
deriving DecidableEq, Repr

/-- `version.InfoOK` (the `Payload` pointer itself may be nil). -/
structure VersionInfoOK where
  Payload : Option RestVersion
deriving DecidableEq, Repr

/-- `models.RestHealthResponse` payload of the `Health.Health` call. -/
structure RestHealthResponse where
  Status : Option String
  Message : Option String
deriving DecidableEq, Repr

/-- `health.HealthOK`. -/
structure HealthOK where
  Payload : Option RestHealthResponse
deriving DecidableEq, Repr

/-- Failure of the health call: the code tolerates the typed
`health.HealthInternalServerError` (adopting its payload as a valid result);
any other error aborts the cycle. -/
inductive HealthCallErr where
  | internalServerError (Payload : Option RestHealthResponse)
  | otherErr (e : GoErr)
deriving DecidableEq, Repr

/-- Outcome of delegating to the active pane's `Render()` (dynamic dispatch;
the pane either returns an error value or panics). -/
inductive PaneCall where
  | ret (err : Option GoErr)
  | panics
deriving DecidableEq, Repr

/-- Environment of one controller render cycle: the outcomes of the two
status calls, the active pane's outcome, and the current wall-clock text
(`time.Now().Format("15:04:05")`). -/
structure DashEnv where
  versionInfo : Except GoErr VersionInfoOK
  healthCall : Except HealthCallErr HealthOK
  paneOutcome : PaneCall
  now : String
deriving Repr

/-- The filter configuration read from viper at construction time. -/
structure DashConfig where
  filterTenant : String
  filterPartition : String
  filterPurpose : String
deriving DecidableEq, Repr

/-- The controller's own widget state mutated by `dashboard.Render` (the two
header paragraphs). -/
structure DashHeaderState where
  filterHeaderText : String
  statusHeaderText : String
deriving DecidableEq, Repr

/-- Outcome of one `dashboard.Render` call.  The deferred status-line redraw
runs on every exit path, including panics, so both outcomes carry the final
header state; a panic then propagates and kills the event loop (there is no
`recover`). -/
inductive DashRenderResult where
  | ok (s : DashHeaderState)
  | panicked (s : DashHeaderState)
deriving DecidableEq, Repr

def DashRenderResult.stateOf : DashRenderResult → DashHeaderState
  | .ok s => s
  | .panicked s => s

def DashRenderResult.isPanic : DashRenderResult → Bool
  | .ok _ => false
  | .panicked _ => true

/-- Message text of a Go error (`%s` of the error value). -/
def goErrText : GoErr → String
  | .simple m => m
  | .clusterInfoDefault _ m => m

/-- The `coloredHealth` switch in the deferred status redraw. -/
def coloredHealthText (apiHealth apiHealthMessage : String) : String :=
  if apiHealth == healthStatusHealthy then
    "[" ++ apiHealth ++ "](fg:green)"
  else if apiHealth == healthStatusDegraded ||
      apiHealth == healthStatusPartiallyUnhealthy then
    "[" ++ apiHealth ++ "](fg:yellow)"
  else if apiHealth == healthStatusUnhealthy then
    if apiHealthMessage ≠ "" then
      "[" ++ apiHealth ++ " (" ++ apiHealthMessage ++ ")](fg:red)"
    else
      "[" ++ apiHealth ++ "](fg:red)"
  else apiHealth

/-- The status-header text composed by the deferred redraw: version line,
fetch-info line (timestamp plus optional last error), glossary line. -/
def mkStatusHeaderText (apiVersion apiHealth apiHealthMessage : String)
    (lastErr : Option GoErr) (now : String) : String :=
  let versionLine := "cloud-api " ++ apiVersion ++ " (API Health: " ++
    coloredHealthText apiHealth apiHealthMessage ++ "), cloudctl " ++
    cloudctlVersion ++ " (" ++ cloudctlGitSHA1 ++ ")"
  let fetchInfoLine := "Last Update: " ++ now ++
    (match lastErr with
     | none => ""
     | some e => ", [Update Error: " ++ goErrText e ++ "](fg:red)")
  let glossaryLine := "Switch between tabs with number keys. Press q to quit."
  versionLine ++ "\n" ++ fetchInfoLine ++ "\n" ++ glossaryLine

/-- The filter-header text drawn at the start of every unlocked cycle. -/
def mkFilterHeaderText (cfg : DashConfig) : String :=
  "Tenant=" ++ cfg.filterTenant ++ "\nPartition=" ++ cfg.filterPartition ++
    "\nPurpose=" ++ cfg.filterPurpose

/-- `dashboard.Render`.

* `locked` is true when the controller's semaphore is already held
  (`TryAcquire` fails and the call returns immediately).
* Dereferences of missing required payload fields
  (`*infoResp.Payload.Version`, `*healthResp.Payload.Status`,
  `*healthResp.Payload.Message`) are nil-pointer panics; the deferred
  status redraw still runs while panicking. -/
def dashboardRender (cfg : DashConfig) (locked : Bool) (env : DashEnv)
    (s : DashHeaderState) : DashRenderResult :=
  if locked then .ok s
  else
    let s := { s with filterHeaderText := mkFilterHeaderText cfg }
    match env.versionInfo with
    | .error e =>
      .ok { s with statusHeaderText :=
        mkStatusHeaderText "unknown" "unknown" "" (some e) env.now }
    | .ok infoResp =>
      match infoResp.Payload with
      | none =>
        .panicked { s with statusHeaderText :=
          mkStatusHeaderText "unknown" "unknown" "" none env.now }
      | some payload =>
        match payload.Version with
        | none =>
          .panicked { s with statusHeaderText :=
            mkStatusHeaderText "unknown" "unknown" "" none env.now }
        | some apiVersion =>
          let healthStep : Except GoErr (Option RestHealthResponse) :=
            match env.healthCall with
            | .ok h => .ok h.Payload
            | .error (.internalServerError p) => .ok p
            | .error (.otherErr e) => .error e
          match healthStep with
          | .error e =>
            .ok { s with statusHeaderText :=
              mkStatusHeaderText apiVersion "unknown" "" (some e) env.now }
          | .ok none =>
            .panicked { s with statusHeaderText :=
              mkStatusHeaderText apiVersion "unknown" "" none env.now }
          | .ok (some hp) =>
            match hp.Status with
            | none =>
              .panicked { s with statusHeaderText :=
                mkStatusHeaderText apiVersion "unknown" "" none env.now }
            | some apiHealth =>
              match hp.Message with
              | none =>
                .panicked { s with statusHeaderText :=
                  mkStatusHeaderText apiVersion apiHealth "" none env.now }
              | some apiHealthMessage =>
                match env.paneOutcome with
                | .ret e =>
                  .ok { s with statusHeaderText :=
                    mkStatusHeaderText apiVersion apiHealth apiHealthMessage e env.now }
                | .panics =>
                  .panicked { s with statusHeaderText :=
                    mkStatusHeaderText apiVersion apiHealth apiHealthMessage none env.now }

/-! ### Event loop and dashboard construction (`runDashboard`, `NewDashboard`) -/

/-- The configured tab names, in insertion order (`dashboardTabs`:
cluster pane, then volume pane). -/
def dashboardTabNames : List String := ["Clusters", "Volumes"]

def dashboardTabCount : Nat := dashboardTabNames.length

/-- The `panelNumbers` key set built in `runDashboard`: the strings `"1"`
through `"N"` for the `N` configured tabs. -/
def panelNumbers (n : Nat) : List String :=
  (List.range n).map fun i => toString (i + 1)

/-- Decimal value of a digit string, most significant first. -/
def goAtoiCore : List Char → Nat → Nat
  | [], acc => acc
  | c :: rest, acc => goAtoiCore rest (acc * 10 + (c.toNat - '0'.toNat))

/-- `strconv.Atoi` as used by the loop (its error is discarded; on a parse
error Go's `Atoi` returns 0), restricted to the unsigned decimal strings
that occur here — the loop only ever parses members of `panelNumbers`. -/
def goAtoi (s : String) : Nat :=
  if !s.data.isEmpty && s.data.all Char.isDigit then goAtoiCore s.data 0 else 0

/-- A terminal event as discriminated by the loop: an input event with its
ID string (`"q"`, `"<C-c>"`, `"<Resize>"`, digit keys, anything else), or a
refresh-ticker tick. -/
inductive UiEvent where
  | uiKey (id : String)
  | tick
deriving DecidableEq, Repr

/-- Outcome of one iteration of the `runDashboard` select loop for the
active-tab index: quit, or continue with the (possibly changed) index. -/
inductive LoopStep where
  | quit
  | cont (idx : Int)
deriving DecidableEq, Repr

/-- One iteration of the `runDashboard` event loop, restricted to its effect
on `tabPane.ActiveTabIndex`: `q`/`<C-c>` quits, `<Resize>` re-renders with
the index unchanged, a key found in `panelNumbers` sets the index to the
parsed digit minus one, every other key is ignored, and ticker ticks only
re-render. -/
def dashboardLoopStep (n : Nat) (idx : Int) (e : UiEvent) : LoopStep :=
  match e with
  | .uiKey id =>
    if id == "q" || id == "<C-c>" then .quit
    else if id == "<Resize>" then .cont idx
    else if (panelNumbers n).contains id then .cont ((goAtoi id : Int) - 1)
    else .cont idx
  | .tick => .cont idx

/-- `dashboardApplyTheme`: only `default` and `dark` are known themes. -/
def dashboardApplyTheme (theme : String) : Except String Unit :=
  if theme == "default" then .ok ()
  else if theme == "dark" then .ok ()
  else .error ("unknown theme: " ++ theme)

/-- `strings.EqualFold` (case-insensitive equality; the tab names involved
are plain ASCII, for which `EqualFold` is lower-case comparison). -/
def strEqualFold (a b : String) : Bool :=
  a.data.map Char.toLower == b.data.map Char.toLower

/-- `dashboardTabPanes.FindIndexByName`: first index whose pane name matches
case-insensitively, else an error (with index 0). -/
def findIndexByName (names : List String) (name : String) : Except String Nat :=
  match names.findIdx? (fun n => strEqualFold n name) with
  | some i => .ok i
  | none => .error ("tab with name \"" ++ name ++ "\" not found")

/-- Construction-time configuration of `NewDashboard` (viper reads). -/
structure NewDashboardArgs where
  colorTheme : String
  initialTabSet : Bool
  initialTab : String
deriving DecidableEq, Repr

/-- `NewDashboard`, restricted to its fallible configuration handling and
the resulting initial `ActiveTabIndex`: an unknown theme or (when the
`initial-tab` flag is set) an unknown initial tab name fails construction;
otherwise the index is the found tab index (default 0). -/
def newDashboard (args : NewDashboardArgs) : Except String Int :=
  match dashboardApplyTheme args.colorTheme with
  | .error e => .error e
  | .ok _ =>
    if args.initialTabSet then
      match findIndexByName dashboardTabNames args.initialTab with
      | .error e => .error e
      | .ok i => .ok (i : Int)
    else .ok 0

/-! ## Claim theorems -/

/-- C1: while the render lock of the owner is already held
(controller-level or pane-level), `Render()` is a no-op: it returns
immediately without error, does not panic, and leaves all widget state
unchanged. -/
theorem c1_render_lock_noop :
    ∀ (cfg : DashConfig) (env : DashEnv) (sd : DashHeaderState)
      (f : List DashboardClusterError → List DashboardClusterError)
      (fr : Except GoErr (List (Option V1ClusterResponse))) (sc : ClusterPaneState)
      (hm : Int → String) (vr : Except GoErr (List (Option V1VolumeResponse)))
      (ir : Except GoErr (List (Option V1StorageClusterInfo))) (sv : VolumePaneState),
      dashboardRender cfg true env sd = .ok sd ∧
      clusterPaneRender f true fr sc = .ok sc none ∧
      volumePaneRender hm true vr ir sv = .ok sv none :=
  fun _ _ _ _ _ _ _ _ _ _ => ⟨rfl, rfl, rfl⟩

/-- The three concrete clusters of claim C7: operational states
`Succeeded`, `Processing`, `""`. -/
def c7Cluster (st : String) : Option V1ClusterResponse :=
  some { Name := some "c"
         Status := some { LastOperation := some { State := some st }
                          Conditions := []
                          LastErrors := [] } }

def c7Clusters : List (Option V1ClusterResponse) :=
  [c7Cluster lastOperationStateSucceeded, c7Cluster lastOperationStateProcessing, c7Cluster ""]

/-- C7: a fetch returning exactly 3 cluster records with operational states
`[Succeeded, Processing, ""]` (the empty state being treated as unhealthy)
renders the operational-health histogram `{Succeeded: 1, Processing: 1,
Unhealthy: 1}`. -/
theorem c7_histogram_concrete :
    ∀ (f : List DashboardClusterError → List DashboardClusterError) (s : ClusterPaneState),
      ∃ s', clusterPaneRender f false (.ok c7Clusters) s = .ok s' none ∧
        s'.clusterHealthData = [1, 1, 1] := by
  intro f s
  exact ⟨clusterWidgetsUpdate f c7Clusters s, rfl, rfl⟩

/-- C9: a volume record whose `State` field is present but whose
`ProtectionState` field is nil is counted in the volume-state `Other` bucket
and the protection-state `Unknown` bucket; the present `State` value is
ignored because the two nil-checks are coupled into a single guard. -/
theorem c9_coupled_nil_guard (v : V1VolumeResponse) (hs : v.State.isSome = true)
    (hp : v.ProtectionState = none) :
    volStateBucket v = .other ∧ volProtBucket v = .unknown ∧
    countVolState [some v] .other = 1 ∧ countVolState [some v] .available = 0 ∧
    countVolProt [some v] .unknown = 1 := by
  obtain ⟨st, hst⟩ := Option.isSome_iff_exists.mp hs
  refine ⟨?_, ?_, ?_, ?_, ?_⟩ <;>
    simp [volStateBucket, volProtBucket, countVolState, countVolProt,
      List.countP_cons, hst, hp]

/-- Witness for C9 at a concrete volume whose state is `Available` but whose
protection state is absent. -/
def c9Volume : V1VolumeResponse :=
  { State := some volumeStateAvailable, ProtectionState := none, Statistics := none }

theorem c9_witness :
    volStateBucket c9Volume = .other ∧ volProtBucket c9Volume = .unknown ∧
    countVolState [some c9Volume] .other = 1 ∧
    countVolState [some c9Volume] .available = 0 ∧
    countVolProt [some c9Volume] .unknown = 1 :=
  c9_coupled_nil_guard c9Volume rfl rfl

/-! ### Helper lemmas: bucket partitions and panic-freedom -/

theorem clusterBucket_indicator (c : V1ClusterResponse) :
    (if (clusterOpBucket c == ClusterOpBucket.succeeded) = true then (1 : Nat) else 0) +
      (if (clusterOpBucket c == ClusterOpBucket.processing) = true then 1 else 0) +
      (if (clusterOpBucket c == ClusterOpBucket.unhealthy) = true then 1 else 0) = 1 := by
  cases clusterOpBucket c <;> rfl

theorem countClusterBucket_partition (cs : List (Option V1ClusterResponse))
    (h : ∀ oc ∈ cs, oc.isSome = true) :
    countClusterBucket cs .succeeded + countClusterBucket cs .processing +
      countClusterBucket cs .unhealthy = cs.length := by
  induction cs with
  | nil => rfl
  | cons oc rest ih =>
    obtain ⟨c, rfl⟩ := Option.isSome_iff_exists.mp (h oc (List.mem_cons_self _ _))
    have hrest := ih fun x hx => h x (List.mem_cons_of_mem _ hx)
    have hind := clusterBucket_indicator c
    simp only [countClusterBucket, List.countP_cons, List.length_cons] at *
    omega

theorem volStateBucket_indicator (v : V1VolumeResponse) :
    (if (volStateBucket v == VolStateBucket.available) = true then (1 : Nat) else 0) +
      (if (volStateBucket v == VolStateBucket.failed) = true then 1 else 0) +
      (if (volStateBucket v == VolStateBucket.unknown) = true then 1 else 0) +
      (if (volStateBucket v == VolStateBucket.other) = true then 1 else 0) = 1 := by
  cases volStateBucket v <;> rfl

theorem countVolState_partition (vs : List (Option V1VolumeResponse))
    (h : ∀ ov ∈ vs, ov.isSome = true) :
    countVolState vs .available + countVolState vs .failed +
      countVolState vs .unknown + countVolState vs .other = vs.length := by
  induction vs with
  | nil => rfl
  | cons ov rest ih =>
    obtain ⟨v, rfl⟩ := Option.isSome_iff_exists.mp (h ov (List.mem_cons_self _ _))
    have hrest := ih fun x hx => h x (List.mem_cons_of_mem _ hx)
    have hind := volStateBucket_indicator v
    simp only [countVolState, List.countP_cons, List.length_cons] at *
    omega

theorem volProtBucket_indicator (v : V1VolumeResponse) :
    (if (volProtBucket v == VolProtBucket.fullyProtected) = true then (1 : Nat) else 0) +
      (if (volProtBucket v == VolProtBucket.degraded) = true then 1 else 0) +
      (if (volProtBucket v == VolProtBucket.readOnly) = true then 1 else 0) +
      (if (volProtBucket v == VolProtBucket.notAvailable) = true then 1 else 0) +
      (if (volProtBucket v == VolProtBucket.unknown) = true then 1 else 0) = 1 := by
  cases volProtBucket v <;> rfl

theorem countVolProt_partition (vs : List (Option V1VolumeResponse))
    (h : ∀ ov ∈ vs, ov.isSome = true) :
    countVolProt vs .fullyProtected + countVolProt vs .degraded +
      countVolProt vs .readOnly + countVolProt vs .notAvailable +
      countVolProt vs .unknown = vs.length := by
  induction vs with
  | nil => rfl
  | cons ov rest ih =>
    obtain ⟨v, rfl⟩ := Option.isSome_iff_exists.mp (h ov (List.mem_cons_self _ _))
    have hrest := ih fun x hx => h x (List.mem_cons_of_mem _ hx)
    have hind := volProtBucket_indicator v
    simp only [countVolProt, List.countP_cons, List.length_cons] at *
    omega

/-- Well-formedness of one fetched cluster entry: the entry itself and all
its `LastErrors` entries are present (this is what the generated API types
promise; the claims' record universe). -/
def ClusterEntryWF (oc : Option V1ClusterResponse) : Prop :=
  ∃ c, oc = some c ∧ ∀ oe ∈ clusterLastErrorsOf c, oe.isSome = true

theorem clusterEntryPanics_eq_false {oc : Option V1ClusterResponse}
    (h : ClusterEntryWF oc) : clusterEntryPanics oc = false := by
  obtain ⟨c, rfl, hle⟩ := h
  simp only [clusterEntryPanics]
  have : (clusterLastErrorsOf c).any (fun oe => oe.isNone) = false := by
    simp only [List.any_eq_false]
    intro oe hoe
    simp only [Option.isNone_iff_eq_none]
    exact Option.isSome_iff_ne_none.mp (hle oe hoe)
  simp [this]

theorem clusters_any_panics_eq_false {cs : List (Option V1ClusterResponse)}
    (h : ∀ oc ∈ cs, ClusterEntryWF oc) : cs.any clusterEntryPanics = false := by
  simp only [List.any_eq_false]
  intro oc hoc
  simp [clusterEntryPanics_eq_false (h oc hoc)]

theorem volumes_any_none_eq_false {vs : List (Option V1VolumeResponse)}
    (h : ∀ ov ∈ vs, ov.isSome = true) :
    (vs.any fun ov => ov.isNone) = false := by
  simp only [List.any_eq_false]
  intro ov hov
  simp only [Option.isNone_iff_eq_none]
  exact Option.isSome_iff_ne_none.mp (h ov hov)

/-- C2: classification assigns each fetched record to exactly one bucket —
the bucket counts of the cluster pane's operation histogram and of both of
the volume pane's histograms sum to the respective record-list length; a
record whose state field chain is absent lands in the designated
unhealthy/other/unknown bucket; and classification is total (the renders
return normally, without panicking, on any record list whose entries are
present, whatever fields the records are missing). -/
theorem c2_classification_total :
    (∀ cs : List (Option V1ClusterResponse), (∀ oc ∈ cs, oc.isSome = true) →
      countClusterBucket cs .succeeded + countClusterBucket cs .processing +
        countClusterBucket cs .unhealthy = cs.length) ∧
    (∀ c : V1ClusterResponse, clusterOpState c = none → clusterOpBucket c = .unhealthy) ∧
    (∀ vs : List (Option V1VolumeResponse), (∀ ov ∈ vs, ov.isSome = true) →
      countVolState vs .available + countVolState vs .failed +
        countVolState vs .unknown + countVolState vs .other = vs.length ∧
      countVolProt vs .fullyProtected + countVolProt vs .degraded +
        countVolProt vs .readOnly + countVolProt vs .notAvailable +
        countVolProt vs .unknown = vs.length) ∧
    (∀ v : V1VolumeResponse, v.State = none →
      volStateBucket v = .other ∧ volProtBucket v = .unknown) ∧
    (∀ (c : V1ClusterResponse) (st : String), clusterOpState c = some st →
      st ≠ lastOperationStateSucceeded → st ≠ lastOperationStateProcessing →
      clusterOpBucket c = .unhealthy) ∧
    (∀ (v : V1VolumeResponse) (st ps : String),
      v.State = some st → v.ProtectionState = some ps →
      st ≠ volumeStateAvailable → st ≠ volumeStateFailed → st ≠ volumeStateUnknown →
      volStateBucket v = .other) ∧
    (∀ (v : V1VolumeResponse) (st ps : String),
      v.State = some st → v.ProtectionState = some ps →
      ps ≠ protFullyProtected → ps ≠ protDegraded → ps ≠ protReadOnly →
      ps ≠ protNotAvailable →
      volProtBucket v = .unknown) ∧
    (∀ (f : List DashboardClusterError → List DashboardClusterError)
       (cs : List (Option V1ClusterResponse)) (s : ClusterPaneState),
      (∀ oc ∈ cs, ClusterEntryWF oc) →
      ∃ s' e, clusterPaneRender f false (.ok cs) s = .ok s' e) ∧
    (∀ (hm : Int → String) (vs : List (Option V1VolumeResponse)) (s : VolumePaneState),
      (∀ ov ∈ vs, ov.isSome = true) →
      ∃ s' e, volumePaneRender hm false (.ok vs) (.ok []) s = .ok s' e) := by
  refine ⟨countClusterBucket_partition, ?_, ?_, ?_, ?_, ?_, ?_, ?_, ?_⟩
  · intro c hc
    simp [clusterOpBucket, hc]
  · intro vs h
    exact ⟨countVolState_partition vs h, countVolProt_partition vs h⟩
  · intro v hv
    constructor <;> simp [volStateBucket, volProtBucket, hv]
  · intro c st hst h1 h2
    by_cases h0 : st = "" <;>
      simp [clusterOpBucket, hst, h0, h1, h2]
  · intro v st ps hst hps h1 h2 h3
    simp [volStateBucket, hst, hps, h1, h2, h3]
  · intro v st ps hst hps h1 h2 h3 h4
    by_cases h5 : ps = protUnknown
    · simp only [volProtBucket, hst, hps, h5]
      decide
    · simp [volProtBucket, hst, hps, h1, h2, h3, h4, h5]
  · intro f cs s h
    have hnp := clusters_any_panics_eq_false h
    by_cases hlen : cs.length = 0
    · exact ⟨s, none, by simp [clusterPaneRender, hnp, hlen]⟩
    · exact ⟨clusterWidgetsUpdate f cs s, none, by simp [clusterPaneRender, hnp, hlen]⟩
  · intro hm vs s h
    have hnp := volumes_any_none_eq_false h
    simp only [volumePaneRender, clusterInfoStep, hnp]
    exact ⟨volumeChartsUpdate hm vs s, none, rfl⟩

/-- A concrete initial cluster-pane widget state (all widgets empty, as after
`NewDashboardClusterPane`). -/
def clusterPaneState0 : ClusterPaneState :=
  { clusterHealthData := []
    clusterStatusAPIPercent := 0
    clusterStatusControlPercent := 0
    clusterStatusNodesPercent := 0
    clusterStatusSystemPercent := 0
    clusterProblemsRows := []
    clusterLastErrorsRows := [] }

/-- A concrete initial volume-pane widget state (all widgets empty, as after
`NewDashboardVolumePane`). -/
def volumePaneState0 : VolumePaneState :=
  { volumeUsedSpaceText := ""
    volumeStateData := []
    volumeProtectionStateData := []
    clusterStateData := []
    serverStateData := []
    physicalFreePercent := 0
    physicalFreeBarColor := .green
    compressionRatioPercent := 0 }

/-- A cluster record with no status at all (every classification field
absent). -/
def c2BareCluster : V1ClusterResponse := { Name := none, Status := none }

/-- A volume record with every classification field absent. -/
def c2BareVolume : V1VolumeResponse :=
  { State := none, ProtectionState := none, Statistics := none }

/-- A cluster record whose operational state is present but unrecognized. -/
def c2BogusCluster : V1ClusterResponse :=
  { Name := some "c"
    Status := some { LastOperation := some { State := some "Bogus" }
                     Conditions := []
                     LastErrors := [] } }

/-- A volume record whose state and protection state are present but
unrecognized. -/
def c2BogusVolume : V1VolumeResponse :=
  { State := some "Bogus", ProtectionState := some "Weird", Statistics := none }

/-- Witness for C2 at concrete one-record lists: a record missing all
optional fields and records with present-but-unrecognized state values all
land in the designated unknown/other buckets, the sums hold, and both
renders return normally. -/
theorem c2_witness :
    (countClusterBucket [some c2BareCluster] .succeeded +
      countClusterBucket [some c2BareCluster] .processing +
      countClusterBucket [some c2BareCluster] .unhealthy = 1) ∧
    clusterOpBucket c2BareCluster = .unhealthy ∧
    (countVolState [some c2BareVolume] .available + countVolState [some c2BareVolume] .failed +
      countVolState [some c2BareVolume] .unknown + countVolState [some c2BareVolume] .other = 1 ∧
     countVolProt [some c2BareVolume] .fullyProtected + countVolProt [some c2BareVolume] .degraded +
      countVolProt [some c2BareVolume] .readOnly + countVolProt [some c2BareVolume] .notAvailable +
      countVolProt [some c2BareVolume] .unknown = 1) ∧
    (volStateBucket c2BareVolume = .other ∧ volProtBucket c2BareVolume = .unknown) ∧
    clusterOpBucket c2BogusCluster = .unhealthy ∧
    volStateBucket c2BogusVolume = .other ∧
    volProtBucket c2BogusVolume = .unknown ∧
    (∃ s' e, clusterPaneRender id false (.ok [some c2BareCluster]) clusterPaneState0 = .ok s' e) ∧
    (∃ s' e, volumePaneRender toString false (.ok [some c2BareVolume]) (.ok [])
      volumePaneState0 = .ok s' e) :=
  ⟨c2_classification_total.1 [some c2BareCluster] (by decide),
   c2_classification_total.2.1 c2BareCluster rfl,
   c2_classification_total.2.2.1 [some c2BareVolume] (by decide),
   c2_classification_total.2.2.2.1 c2BareVolume rfl,
   c2_classification_total.2.2.2.2.1 c2BogusCluster "Bogus" rfl (by decide) (by decide),
   c2_classification_total.2.2.2.2.2.1 c2BogusVolume "Bogus" "Weird" rfl rfl
     (by decide) (by decide) (by decide),
   c2_classification_total.2.2.2.2.2.2.1 c2BogusVolume "Bogus" "Weird" rfl rfl
     (by decide) (by decide) (by decide) (by decide),
   c2_classification_total.2.2.2.2.2.2.2.1 id [some c2BareCluster] clusterPaneState0
     (fun oc hoc => by
       simp only [List.mem_singleton] at hoc
       subst hoc
       exact ⟨c2BareCluster, rfl, by simp [clusterLastErrorsOf, c2BareCluster]⟩),
   c2_classification_total.2.2.2.2.2.2.2.2 toString [some c2BareVolume] volumePaneState0
     (by decide)⟩

/-! ### Helper lemmas: volume chart update projections -/

theorem volumeChartsUpdate_clusterStateData (hm : Int → String)
    (vs : List (Option V1VolumeResponse)) (s : VolumePaneState) :
    (volumeChartsUpdate hm vs s).clusterStateData = s.clusterStateData := by
  unfold volumeChartsUpdate
  dsimp only
  split <;> split <;> rfl

theorem volumeChartsUpdate_serverStateData (hm : Int → String)
    (vs : List (Option V1VolumeResponse)) (s : VolumePaneState) :
    (volumeChartsUpdate hm vs s).serverStateData = s.serverStateData := by
  unfold volumeChartsUpdate
  dsimp only
  split <;> split <;> rfl

theorem volumeChartsUpdate_physicalFreePercent (hm : Int → String)
    (vs : List (Option V1VolumeResponse)) (s : VolumePaneState) :
    (volumeChartsUpdate hm vs s).physicalFreePercent = s.physicalFreePercent := by
  unfold volumeChartsUpdate
  dsimp only
  split <;> split <;> rfl

theorem volumeChartsUpdate_compressionRatioPercent (hm : Int → String)
    (vs : List (Option V1VolumeResponse)) (s : VolumePaneState) :
    (volumeChartsUpdate hm vs s).compressionRatioPercent = s.compressionRatioPercent := by
  unfold volumeChartsUpdate
  dsimp only
  split <;> split <;> rfl

theorem volumeChartsUpdate_volumeStateData_pos (hm : Int → String)
    (vs : List (Option V1VolumeResponse)) (s : VolumePaneState)
    (hpos : 0 < countVolState vs .available ∨ 0 < countVolState vs .failed ∨
      0 < countVolState vs .unknown ∨ 0 < countVolState vs .other) :
    (volumeChartsUpdate hm vs s).volumeStateData =
      [countVolState vs .available, countVolState vs .failed,
       countVolState vs .unknown, countVolState vs .other] := by
  unfold volumeChartsUpdate
  dsimp only
  have hcond : (decide (countVolState vs .available > 0) ||
      decide (countVolState vs .failed > 0) || decide (countVolState vs .unknown > 0) ||
      decide (countVolState vs .other > 0)) = true := by
    rcases hpos with h | h | h | h <;> simp [h]
  rw [hcond]
  split <;> rfl

/-- C3: on the volume pane's optional secondary fetch (`ClusterInfo`), a
Forbidden (403) typed failure produces a successful partial render with no
surfaced error — the volume charts are still updated (shown here for the
volume-state chart, whenever it has a nonzero bucket) while the admin-only
storage-section widgets keep their previous state — whereas any
non-forbidden failure of that fetch surfaces the error and leaves the
dependent storage section (and every other widget) undrawn. -/
theorem c3_forbidden_partial_render (hm : Int → String)
    (vs : List (Option V1VolumeResponse)) (msg : String) (code : Int)
    (s : VolumePaneState) (hvs : (vs.any fun ov => ov.isNone) = false) :
    (volumePaneRender hm false (.ok vs)
        (.error (.clusterInfoDefault statusForbidden msg)) s
      = .ok (volumeChartsUpdate hm vs s) none) ∧
    ((0 < countVolState vs .available ∨ 0 < countVolState vs .failed ∨
        0 < countVolState vs .unknown ∨ 0 < countVolState vs .other) →
      (volumeChartsUpdate hm vs s).volumeStateData =
        [countVolState vs .available, countVolState vs .failed,
         countVolState vs .unknown, countVolState vs .other]) ∧
    (volumeChartsUpdate hm vs s).clusterStateData = s.clusterStateData ∧
    (volumeChartsUpdate hm vs s).serverStateData = s.serverStateData ∧
    (volumeChartsUpdate hm vs s).physicalFreePercent = s.physicalFreePercent ∧
    (volumeChartsUpdate hm vs s).compressionRatioPercent = s.compressionRatioPercent ∧
    (code ≠ statusForbidden →
      volumePaneRender hm false (.ok vs) (.error (.clusterInfoDefault code msg)) s
        = .ok s (some (.clusterInfoDefault code msg))) ∧
    (volumePaneRender hm false (.ok vs) (.error (.simple msg)) s
      = .ok s (some (.simple msg))) := by
  refine ⟨?_, volumeChartsUpdate_volumeStateData_pos hm vs s,
    volumeChartsUpdate_clusterStateData hm vs s,
    volumeChartsUpdate_serverStateData hm vs s,
    volumeChartsUpdate_physicalFreePercent hm vs s,
    volumeChartsUpdate_compressionRatioPercent hm vs s, ?_, ?_⟩
  · simp [volumePaneRender, clusterInfoStep, hvs]
  · intro hcode
    simp [volumePaneRender, clusterInfoStep, hcode]
  · simp [volumePaneRender, clusterInfoStep]

/-- A concrete available, fully protected volume record. -/
def c3Volume : V1VolumeResponse :=
  { State := some volumeStateAvailable
    ProtectionState := some protFullyProtected
    Statistics := none }

/-- Witness for C3 at a concrete one-volume list: forbidden yields a partial
render with the volume-state chart drawn and storage widgets untouched;
a 500 on the same fetch is surfaced with nothing drawn. -/
theorem c3_witness :
    (volumePaneRender toString false (.ok [some c3Volume])
        (.error (.clusterInfoDefault statusForbidden "boom")) volumePaneState0
      = .ok (volumeChartsUpdate toString [some c3Volume] volumePaneState0) none) ∧
    ((0 < countVolState [some c3Volume] .available ∨
        0 < countVolState [some c3Volume] .failed ∨
        0 < countVolState [some c3Volume] .unknown ∨
        0 < countVolState [some c3Volume] .other) →
      (volumeChartsUpdate toString [some c3Volume] volumePaneState0).volumeStateData =
        [countVolState [some c3Volume] .available, countVolState [some c3Volume] .failed,
         countVolState [some c3Volume] .unknown, countVolState [some c3Volume] .other]) ∧
    (volumeChartsUpdate toString [some c3Volume] volumePaneState0).clusterStateData =
      volumePaneState0.clusterStateData ∧
    (volumeChartsUpdate toString [some c3Volume] volumePaneState0).serverStateData =
      volumePaneState0.serverStateData ∧
    (volumeChartsUpdate toString [some c3Volume] volumePaneState0).physicalFreePercent =
      volumePaneState0.physicalFreePercent ∧
    (volumeChartsUpdate toString [some c3Volume] volumePaneState0).compressionRatioPercent =
      volumePaneState0.compressionRatioPercent ∧
    ((500 : Int) ≠ statusForbidden →
      volumePaneRender toString false (.ok [some c3Volume])
          (.error (.clusterInfoDefault 500 "boom")) volumePaneState0
        = .ok volumePaneState0 (some (.clusterInfoDefault 500 "boom"))) ∧
    (volumePaneRender toString false (.ok [some c3Volume])
        (.error (.simple "boom")) volumePaneState0
      = .ok volumePaneState0 (some (.simple "boom"))) :=
  c3_forbidden_partial_render toString [some c3Volume] "boom" 500 volumePaneState0 (by decide)

/-! ### Helper lemmas: all-zero histograms -/

theorem entries_isSome_of_no_panics {cs : List (Option V1ClusterResponse)}
    (h : cs.any clusterEntryPanics = false) : ∀ oc ∈ cs, oc.isSome = true := by
  rw [List.any_eq_false] at h
  intro oc hoc
  cases oc with
  | none => exact absurd rfl (h none hoc)
  | some c => rfl

theorem volumeChartsUpdate_allzero (hm : Int → String)
    (vs : List (Option V1VolumeResponse)) (t : VolumePaneState)
    (hzs : ∀ b, countVolState vs b = 0) (hzp : ∀ b, countVolProt vs b = 0) :
    volumeChartsUpdate hm vs t =
      { t with volumeUsedSpaceText :=
          "Summed up physical size of volumes: " ++ hm (sumVolUsedPhysical vs) } := by
  unfold volumeChartsUpdate
  dsimp only
  rw [show (decide (countVolState vs .available > 0) ||
      decide (countVolState vs .failed > 0) || decide (countVolState vs .unknown > 0) ||
      decide (countVolState vs .other > 0)) = false by simp [hzs]]
  rw [show (decide (countVolProt vs .fullyProtected > 0) ||
      decide (countVolProt vs .degraded > 0) || decide (countVolProt vs .readOnly > 0) ||
      decide (countVolProt vs .notAvailable > 0) ||
      decide (countVolProt vs .unknown > 0)) = false by simp [hzp]]
  rfl

theorem storageSectionUpdate_serverStateData_zero
    (cs : List (Option V1StorageClusterInfo)) (t : VolumePaneState)
    (hz : ∀ b, countServers cs b = 0) :
    (storageSectionUpdate cs t).serverStateData = t.serverStateData := by
  unfold storageSectionUpdate
  dsimp only
  split
  · rename_i h
    simp [hz] at h
  · split <;> rfl

/-- C6: a histogram whose every bucket is zero issues no chart redraw: the
chart's stored data is left untouched, the render returns no error, and
repeating the render is idempotent.  Stated for the cluster pane's operation
chart (all-zero there means an empty fetch, so the whole render is a no-op),
for the volume pane's two volume charts, and for the storage server chart
(the one all-zero chart reachable with a non-empty fetch). -/
theorem c6_allzero_no_redraw :
    (∀ (f : List DashboardClusterError → List DashboardClusterError)
       (cs : List (Option V1ClusterResponse)) (s : ClusterPaneState),
      cs.any clusterEntryPanics = false →
      countClusterBucket cs .succeeded = 0 →
      countClusterBucket cs .processing = 0 →
      countClusterBucket cs .unhealthy = 0 →
      clusterPaneRender f false (.ok cs) s = .ok s none ∧
      clusterPaneRender f false (.ok cs)
        ((clusterPaneRender f false (.ok cs) s).stateOf) = .ok s none) ∧
    (∀ (hm : Int → String) (vs : List (Option V1VolumeResponse)) (s : VolumePaneState),
      (vs.any fun ov => ov.isNone) = false →
      (∀ b, countVolState vs b = 0) → (∀ b, countVolProt vs b = 0) →
      ∃ s', volumePaneRender hm false (.ok vs)
          (.error (.clusterInfoDefault statusForbidden "")) s = .ok s' none ∧
        s'.volumeStateData = s.volumeStateData ∧
        s'.volumeProtectionStateData = s.volumeProtectionStateData ∧
        s'.clusterStateData = s.clusterStateData ∧
        s'.serverStateData = s.serverStateData ∧
        volumePaneRender hm false (.ok vs)
          (.error (.clusterInfoDefault statusForbidden "")) s' = .ok s' none) ∧
    (∀ (hm : Int → String) (vs : List (Option V1VolumeResponse))
       (cs : List (Option V1StorageClusterInfo)) (s : VolumePaneState),
      (vs.any fun ov => ov.isNone) = false →
      cs.any storClusterEntryPanics = false →
      (∀ b, countServers cs b = 0) →
      ∃ s', volumePaneRender hm false (.ok vs) (.ok cs) s = .ok s' none ∧
        s'.serverStateData = s.serverStateData) := by
  refine ⟨?_, ?_, ?_⟩
  · intro f cs s hnp h1 h2 h3
    have hlen0 : cs.length = 0 := by
      have := countClusterBucket_partition cs (entries_isSome_of_no_panics hnp)
      omega
    constructor <;> simp [clusterPaneRender, ClusterPaneResult.stateOf, hnp, hlen0]
  · intro hm vs s hvs hzs hzp
    refine ⟨volumeChartsUpdate hm vs s, ?_, ?_, ?_, ?_, ?_, ?_⟩
    · simp [volumePaneRender, clusterInfoStep, hvs]
    · rw [volumeChartsUpdate_allzero hm vs s hzs hzp]
    · rw [volumeChartsUpdate_allzero hm vs s hzs hzp]
    · rw [volumeChartsUpdate_allzero hm vs s hzs hzp]
    · rw [volumeChartsUpdate_allzero hm vs s hzs hzp]
    · have hfix : volumeChartsUpdate hm vs (volumeChartsUpdate hm vs s) =
          volumeChartsUpdate hm vs s := by
        rw [volumeChartsUpdate_allzero hm vs s hzs hzp,
          volumeChartsUpdate_allzero hm vs _ hzs hzp]
      simp [volumePaneRender, clusterInfoStep, hvs, hfix]
  · intro hm vs cs s hvs hnp hz
    by_cases hlen : cs.length = 0
    · refine ⟨volumeChartsUpdate hm vs s, ?_, ?_⟩
      · simp [volumePaneRender, clusterInfoStep, hvs, hlen]
      · exact volumeChartsUpdate_serverStateData hm vs s
    · refine ⟨storageSectionUpdate cs (volumeChartsUpdate hm vs s), ?_, ?_⟩
      · simp [volumePaneRender, clusterInfoStep, hvs, hlen, hnp]
      · rw [storageSectionUpdate_serverStateData_zero cs _ hz,
          volumeChartsUpdate_serverStateData hm vs s]

/-- A storage cluster with healthy state and no servers (its server
histogram is all-zero). -/
def c6StorCluster : Option V1StorageClusterInfo :=
  some { Health := some { State := some storHealthOK }, Servers := [], Statistics := none }

/-- Witness for C6: empty cluster fetch (all-zero operation histogram),
empty volume fetch (all-zero volume histograms), and a one-cluster storage
fetch with no servers (all-zero server histogram). -/
theorem c6_witness :
    (clusterPaneRender id false (.ok []) clusterPaneState0 = .ok clusterPaneState0 none ∧
     clusterPaneRender id false (.ok [])
       ((clusterPaneRender id false (.ok []) clusterPaneState0).stateOf)
       = .ok clusterPaneState0 none) ∧
    (∃ s', volumePaneRender toString false (.ok [])
        (.error (.clusterInfoDefault statusForbidden "")) volumePaneState0 = .ok s' none ∧
      s'.volumeStateData = volumePaneState0.volumeStateData ∧
      s'.volumeProtectionStateData = volumePaneState0.volumeProtectionStateData ∧
      s'.clusterStateData = volumePaneState0.clusterStateData ∧
      s'.serverStateData = volumePaneState0.serverStateData ∧
      volumePaneRender toString false (.ok [])
        (.error (.clusterInfoDefault statusForbidden "")) s' = .ok s' none) ∧
    (∃ s', volumePaneRender toString false (.ok []) (.ok [c6StorCluster])
        volumePaneState0 = .ok s' none ∧
      s'.serverStateData = volumePaneState0.serverStateData) :=
  ⟨c6_allzero_no_redraw.1 id [] clusterPaneState0 rfl rfl rfl rfl,
   c6_allzero_no_redraw.2.1 toString [] volumePaneState0 rfl
     (fun _ => rfl) (fun _ => rfl),
   c6_allzero_no_redraw.2.2 toString [] [c6StorCluster] volumePaneState0 rfl rfl
     (fun _ => rfl)⟩

/-! ### The `sort.Slice` contract (claim C4)

`cmd/dashboard.go` sorts both tables with
`sort.Slice(recs, func(i, j int) bool { return recs[i].Time.After(recs[j].Time) })`.
`sort.Slice` is the Go standard library; its documented contract is that the
result is a permutation ordered by the comparator, and "The sort is not
guaranteed to be stable".  The render is therefore parameterised over any
function satisfying this contract. -/

/-- The comparator's induced non-strict order: element `b` may follow `a`
iff `b.Time ≤ a.Time` (i.e. `¬ b.Time.After(a.Time)` fails nowhere), which
is what "sorted by `Time.After`" guarantees for the output. -/
def SortSliceContract
    (f : List DashboardClusterError → List DashboardClusterError) : Prop :=
  ∀ l, (f l).Perm l ∧ (f l).Pairwise fun a b => b.Time ≤ a.Time

/-- The descending-time comparator as a total Boolean relation. -/
def timeGe (a b : DashboardClusterError) : Bool := decide (b.Time ≤ a.Time)

/-- Modelled from the spec: the spec's rule "sorted by timestamp descending
(most recent first); ties retain fetch order" is the *stable* descending
sort (`List.mergeSort` is documented stable). -/
def specStableSortDesc (l : List DashboardClusterError) : List DashboardClusterError :=
  l.mergeSort timeGe

/-- An unstable-but-conforming sort: stable-sort the reversed input.  Its
output is a permutation ordered descending by time, but equal-timestamp
records end up in reversed fetch order. -/
def revMergeSortDesc (l : List DashboardClusterError) : List DashboardClusterError :=
  l.reverse.mergeSort timeGe

theorem timeGe_trans : ∀ a b c, timeGe a b = true → timeGe b c = true →
    timeGe a c = true := by
  intro a b c
  simp only [timeGe, decide_eq_true_eq]
  omega

theorem timeGe_total : ∀ a b, (timeGe a b || timeGe b a) = true := by
  intro a b
  simp only [timeGe, Bool.or_eq_true, decide_eq_true_eq]
  omega

theorem mergeSort_timeGe_pairwise (l : List DashboardClusterError) :
    (l.mergeSort timeGe).Pairwise fun a b => b.Time ≤ a.Time := by
  refine (List.sorted_mergeSort timeGe_trans timeGe_total l).imp ?_
  intro a b h
  simpa [timeGe] using h

theorem specStableSortDesc_contract : SortSliceContract specStableSortDesc :=
  fun l => ⟨List.mergeSort_perm l timeGe, mergeSort_timeGe_pairwise l⟩

theorem revMergeSortDesc_contract : SortSliceContract revMergeSortDesc :=
  fun l => ⟨(List.mergeSort_perm l.reverse timeGe).trans (List.reverse_perm l),
    mergeSort_timeGe_pairwise l.reverse⟩

/-- The three records of the claim's `[T-1h, T-3h, T]` example (fetch
order), with `T = 0` in seconds. -/
def c4recT1h : DashboardClusterError := ⟨"a", "m1", -3600⟩

def c4recT3h : DashboardClusterError := ⟨"b", "m2", -10800⟩

def c4recT : DashboardClusterError := ⟨"c", "m3", 0⟩

/-- With pairwise-distinct timestamps the contract pins the output uniquely:
every conforming sort maps `[T-1h, T-3h, T]` to `[T, T-1h, T-3h]`. -/
theorem sortContract_distinct3
    (f : List DashboardClusterError → List DashboardClusterError)
    (hf : SortSliceContract f) :
    f [c4recT1h, c4recT3h, c4recT] = [c4recT, c4recT1h, c4recT3h] := by
  obtain ⟨hperm, hsort⟩ := hf [c4recT1h, c4recT3h, c4recT]
  have hperm2 : (f [c4recT1h, c4recT3h, c4recT]).Perm [c4recT, c4recT1h, c4recT3h] :=
    hperm.trans (by decide)
  have hsort2 : (f [c4recT1h, c4recT3h, c4recT]).Pairwise
      fun a b => b.Time < a.Time ∨ a = b := by
    refine hsort.imp_of_mem ?_
    intro a b ha hb hle
    have ha2 : a ∈ ([c4recT1h, c4recT3h, c4recT] : List _) := hperm.mem_iff.mp ha
    have hb2 : b ∈ ([c4recT1h, c4recT3h, c4recT] : List _) := hperm.mem_iff.mp hb
    fin_cases ha2 <;> fin_cases hb2 <;>
      first
        | (right; rfl)
        | (left; decide)
        | (exact absurd hle (by decide))
  haveI : IsAntisymm DashboardClusterError (fun a b => b.Time < a.Time ∨ a = b) := by
    constructor
    intro a b h1 h2
    rcases h1 with h1 | h1
    · rcases h2 with h2 | h2
      · omega
      · exact h2.symm
    · exact h1
  exact List.eq_of_perm_of_sorted hperm2 hsort2 (by decide)

/-- Two clusters, fetched in order `a` then `b`, each with one failing
condition carrying the same timestamp: two problem records tied on time. -/
def c4TieClusterA : Option V1ClusterResponse :=
  some { Name := some "a"
         Status := some { LastOperation := some { State := some lastOperationStateSucceeded }
                          Conditions := [some { Status := some "False", Type_ := some "X",
                                                Message := some "down", LastUpdateTime := some 0 }]
                          LastErrors := [] } }

def c4TieClusterB : Option V1ClusterResponse :=
  some { Name := some "b"
         Status := some { LastOperation := some { State := some lastOperationStateSucceeded }
                          Conditions := [some { Status := some "False", Type_ := some "X",
                                                Message := some "down", LastUpdateTime := some 0 }]
                          LastErrors := [] } }

def c4TieClusters : List (Option V1ClusterResponse) := [c4TieClusterA, c4TieClusterB]

unseal List.merge List.mergeSort in
/-- C4 counterexample: the sort the code actually calls is only contracted
to order by descending time, not to be stable, and a conforming sort exists
(`revMergeSortDesc`) under which the rendered problem table puts two
equal-timestamp records in the reverse of their fetch order — differing from
the tie-retaining order the claim predicts. -/
theorem c4_sort_unstable_counterexample :
    SortSliceContract revMergeSortDesc ∧
    (clusterPaneRender revMergeSortDesc false (.ok c4TieClusters)
        clusterPaneState0).stateOf.clusterProblemsRows
      = [["b", "(X) down"], ["a", "(X) down"]] ∧
    problemRows (specStableSortDesc (collectClusterErrors c4TieClusters))
      = [["a", "(X) down"], ["b", "(X) down"]] ∧
    (clusterPaneRender revMergeSortDesc false (.ok c4TieClusters)
        clusterPaneState0).stateOf.clusterProblemsRows
      ≠ problemRows (specStableSortDesc (collectClusterErrors c4TieClusters)) := by
  refine ⟨revMergeSortDesc_contract, by decide, by decide, by decide⟩

/-! ### Helper lemmas: cluster widget update projections -/

theorem clusterWidgetsUpdate_problemsRows
    (f : List DashboardClusterError → List DashboardClusterError)
    (cs : List (Option V1ClusterResponse)) (s : ClusterPaneState) :
    (clusterWidgetsUpdate f cs s).clusterProblemsRows
      = problemRows (f (collectClusterErrors cs)) := by
  unfold clusterWidgetsUpdate
  dsimp only

theorem clusterWidgetsUpdate_lastErrorsRows
    (f : List DashboardClusterError → List DashboardClusterError)
    (cs : List (Option V1ClusterResponse)) (s : ClusterPaneState) :
    (clusterWidgetsUpdate f cs s).clusterLastErrorsRows
      = problemRows (f (collectLastErrors cs)) := by
  unfold clusterWidgetsUpdate
  dsimp only

/-- C4 (amended): the rendered problem and last-errors tables are the
collected records reordered by the standard sort under the descending-time
comparator — a permutation of the collected records in which no record is
followed by one with a strictly greater timestamp; equal-timestamp records
need not retain fetch order (the sort is not guaranteed stable); and for the
pairwise-distinct timestamps `[T-1h, T-3h, T]` every conforming sort renders
the order `[T, T-1h, T-3h]`. -/
theorem c4_sorted_desc_unstable
    (f : List DashboardClusterError → List DashboardClusterError)
    (hf : SortSliceContract f)
    (cs : List (Option V1ClusterResponse)) (s : ClusterPaneState)
    (hnp : cs.any clusterEntryPanics = false) (hne : cs.length ≠ 0) :
    clusterPaneRender f false (.ok cs) s = .ok (clusterWidgetsUpdate f cs s) none ∧
    (clusterWidgetsUpdate f cs s).clusterProblemsRows
      = problemRows (f (collectClusterErrors cs)) ∧
    (f (collectClusterErrors cs)).Perm (collectClusterErrors cs) ∧
    (f (collectClusterErrors cs)).Pairwise (fun a b => b.Time ≤ a.Time) ∧
    (clusterWidgetsUpdate f cs s).clusterLastErrorsRows
      = problemRows (f (collectLastErrors cs)) ∧
    (f (collectLastErrors cs)).Perm (collectLastErrors cs) ∧
    (f (collectLastErrors cs)).Pairwise (fun a b => b.Time ≤ a.Time) ∧
    f [c4recT1h, c4recT3h, c4recT] = [c4recT, c4recT1h, c4recT3h] :=
  ⟨by simp [clusterPaneRender, hnp, hne],
   clusterWidgetsUpdate_problemsRows f cs s,
   (hf (collectClusterErrors cs)).1,
   (hf (collectClusterErrors cs)).2,
   clusterWidgetsUpdate_lastErrorsRows f cs s,
   (hf (collectLastErrors cs)).1,
   (hf (collectLastErrors cs)).2,
   sortContract_distinct3 f hf⟩

/-- Witness for the amended C4, applying it to the stable conforming sort
and the concrete two-cluster fetch. -/
theorem c4_sorted_witness :
    clusterPaneRender specStableSortDesc false (.ok c4TieClusters) clusterPaneState0
      = .ok (clusterWidgetsUpdate specStableSortDesc c4TieClusters clusterPaneState0) none ∧
    (clusterWidgetsUpdate specStableSortDesc c4TieClusters clusterPaneState0).clusterProblemsRows
      = problemRows (specStableSortDesc (collectClusterErrors c4TieClusters)) ∧
    (specStableSortDesc (collectClusterErrors c4TieClusters)).Perm
      (collectClusterErrors c4TieClusters) ∧
    (specStableSortDesc (collectClusterErrors c4TieClusters)).Pairwise
      (fun a b => b.Time ≤ a.Time) ∧
    (clusterWidgetsUpdate specStableSortDesc c4TieClusters clusterPaneState0).clusterLastErrorsRows
      = problemRows (specStableSortDesc (collectLastErrors c4TieClusters)) ∧
    (specStableSortDesc (collectLastErrors c4TieClusters)).Perm
      (collectLastErrors c4TieClusters) ∧
    (specStableSortDesc (collectLastErrors c4TieClusters)).Pairwise
      (fun a b => b.Time ≤ a.Time) ∧
    specStableSortDesc [c4recT1h, c4recT3h, c4recT] = [c4recT, c4recT1h, c4recT3h] :=
  c4_sorted_desc_unstable specStableSortDesc specStableSortDesc_contract
    c4TieClusters clusterPaneState0 (by decide) (by decide)

/-! ### Claim C5: gauge bounds -/

/-- A condition of type `APIServerAvailable` with status `True`. -/
def c5ApiCond : Option V1ClusterCondition :=
  some { Status := some conditionTrue, Type_ := some shootAPIServerAvailable,
         Message := none, LastUpdateTime := none }

/-- A cluster that reports the `APIServerAvailable` condition twice. -/
def c5DupCluster : Option V1ClusterResponse :=
  some { Name := some "c1"
         Status := some { LastOperation := some { State := some lastOperationStateSucceeded }
                          Conditions := [c5ApiCond, c5ApiCond]
                          LastErrors := [] } }

/-- C5 counterexample: a non-empty fetch (one cluster) whose record carries
a duplicated condition type makes the API gauge percentage 200, violating
`percent ≤ 100`. -/
theorem c5_gauge_counterexample :
    ([c5DupCluster] : List (Option V1ClusterResponse)).length ≠ 0 ∧
    (clusterPaneRender specStableSortDesc false (.ok [c5DupCluster])
        clusterPaneState0).isPanic = false ∧
    (clusterPaneRender specStableSortDesc false (.ok [c5DupCluster])
        clusterPaneState0).errOf = none ∧
    (clusterPaneRender specStableSortDesc false (.ok [c5DupCluster])
        clusterPaneState0).stateOf.clusterStatusAPIPercent = 200 ∧
    ¬ ((clusterPaneRender specStableSortDesc false (.ok [c5DupCluster])
        clusterPaneState0).stateOf.clusterStatusAPIPercent ≤ 100) :=
  ⟨by decide, rfl, rfl, rfl, by decide⟩

/-- The condition types listed by a cluster record (present entries with a
present `Type` field, in order). -/
def condTypesOf (c : V1ClusterResponse) : List String :=
  (clusterConditions c).filterMap fun oc => oc.bind fun cond => cond.Type_

theorem countP_counted_le_count (ty : String) (conds : List (Option V1ClusterCondition)) :
    conds.countP (conditionCountedOK ty) ≤
      (conds.filterMap fun oc => oc.bind fun cond => cond.Type_).count ty := by
  induction conds with
  | nil => simp
  | cons oc rest ih =>
    rw [List.countP_cons]
    rcases oc with _ | cond
    · simpa [conditionCountedOK] using ih
    · rcases hst : cond.Status with _ | st <;> rcases hty : cond.Type_ with _ | t
      · simp only [conditionCountedOK, hst, hty, List.filterMap_cons, Option.some_bind]
        simpa using ih
      · simp only [conditionCountedOK, hst, hty, List.filterMap_cons, Option.some_bind,
          List.count_cons]
        have : rest.countP (conditionCountedOK ty) ≤
            (rest.filterMap fun oc => oc.bind fun cond => cond.Type_).count ty := ih
        by_cases hteq : t = ty <;> simp [hteq] <;> omega
      · simp only [conditionCountedOK, hst, hty, List.filterMap_cons, Option.some_bind]
        simpa using ih
      · simp only [conditionCountedOK, hst, hty, List.filterMap_cons, Option.some_bind,
          List.count_cons]
        have : rest.countP (conditionCountedOK ty) ≤
            (rest.filterMap fun oc => oc.bind fun cond => cond.Type_).count ty := ih
        by_cases hteq : t = ty
        · subst hteq
          by_cases hok : (st == conditionTrue || st == conditionProgressing) = true <;>
            simp [hok] <;> omega
        · simp [hteq, Ne.symm hteq]
          omega

theorem clusterCondOKEntry_le_one (ty : String) (oc : Option V1ClusterResponse)
    (h : ∀ c, oc = some c → (condTypesOf c).Nodup) :
    clusterCondOKEntry ty oc ≤ 1 := by
  rcases oc with _ | c
  · exact Nat.zero_le 1
  · unfold clusterCondOKEntry
    dsimp only
    by_cases hmiss : clusterMissingState c = true
    · simp [hmiss]
    · rw [if_neg hmiss]
      calc (clusterConditions c).countP (conditionCountedOK ty)
          ≤ (condTypesOf c).count ty := countP_counted_le_count ty (clusterConditions c)
        _ ≤ 1 := List.nodup_iff_count_le_one.mp (h c rfl) ty

theorem sum_map_le_length {α : Type} (l : List α) (g : α → Nat)
    (h : ∀ x ∈ l, g x ≤ 1) : (l.map g).sum ≤ l.length := by
  induction l with
  | nil => simp
  | cons x rest ih =>
    simp only [List.map_cons, List.sum_cons, List.length_cons]
    have h1 := h x (List.mem_cons_self _ _)
    have h2 := ih fun y hy => h y (List.mem_cons_of_mem _ hy)
    omega

theorem clusterCondOKCount_le_length (ty : String)
    (cs : List (Option V1ClusterResponse))
    (h : ∀ c, some c ∈ cs → (condTypesOf c).Nodup) :
    clusterCondOKCount ty cs ≤ cs.length := by
  have := sum_map_le_length cs (clusterCondOKEntry ty) fun oc hoc =>
    clusterCondOKEntry_le_one ty oc fun c hc => h c (hc ▸ hoc)
  simpa [clusterCondOKCount] using this

theorem gauge_nat_le_100 (a n : Nat) (ha : a ≤ n) (hn : 0 < n) :
    a * 100 / n ≤ 100 := by
  calc a * 100 / n ≤ n * 100 / n :=
        Nat.div_le_div_right (Nat.mul_le_mul_right _ ha)
    _ = 100 := Nat.mul_div_cancel_left 100 hn

theorem gauge_int_cast (a n : Nat) :
    (a : Int) * 100 / (n : Int) = ((a * 100 / n : Nat) : Int) := by
  have h1 : ((a : Int) * 100) = ((a * 100 : Nat) : Int) := by push_cast; ring
  rw [h1]
  exact_mod_cast rfl

/-- C5 (amended): when the fetched record count is zero, the gauge
computation is skipped entirely (the cluster render is a no-op and the
volume render leaves its gauges untouched); the cluster pane's gauges are
always nonnegative; and they are at most 100 whenever no fetched cluster
lists the same condition type more than once — a duplicated condition type
can push a gauge above 100 (see the counterexample); the volume pane's
storage gauges mirror unvalidated floating-point statistics and get no
range guarantee. -/
theorem c5_gauge_bounds :
    (∀ (f : List DashboardClusterError → List DashboardClusterError)
       (s : ClusterPaneState),
      clusterPaneRender f false (.ok []) s = .ok s none) ∧
    (∀ (hm : Int → String) (vs : List (Option V1VolumeResponse)) (s : VolumePaneState),
      (vs.any fun ov => ov.isNone) = false →
      ∃ s', volumePaneRender hm false (.ok vs) (.ok []) s = .ok s' none ∧
        s'.physicalFreePercent = s.physicalFreePercent ∧
        s'.compressionRatioPercent = s.compressionRatioPercent) ∧
    (∀ (f : List DashboardClusterError → List DashboardClusterError)
       (cs : List (Option V1ClusterResponse)) (s : ClusterPaneState),
      0 ≤ (clusterWidgetsUpdate f cs s).clusterStatusAPIPercent ∧
      0 ≤ (clusterWidgetsUpdate f cs s).clusterStatusControlPercent ∧
      0 ≤ (clusterWidgetsUpdate f cs s).clusterStatusNodesPercent ∧
      0 ≤ (clusterWidgetsUpdate f cs s).clusterStatusSystemPercent) ∧
    (∀ (f : List DashboardClusterError → List DashboardClusterError)
       (cs : List (Option V1ClusterResponse)) (s : ClusterPaneState),
      (∀ c, some c ∈ cs → (condTypesOf c).Nodup) →
      cs.length ≠ 0 →
      (clusterWidgetsUpdate f cs s).clusterStatusAPIPercent ≤ 100 ∧
      (clusterWidgetsUpdate f cs s).clusterStatusControlPercent ≤ 100 ∧
      (clusterWidgetsUpdate f cs s).clusterStatusNodesPercent ≤ 100 ∧
      (clusterWidgetsUpdate f cs s).clusterStatusSystemPercent ≤ 100) := by
  have hproj : ∀ f cs s,
      (clusterWidgetsUpdate f cs s).clusterStatusAPIPercent =
        (clusterCondOKCount shootAPIServerAvailable cs : Int) * 100 / (cs.length : Int) ∧
      (clusterWidgetsUpdate f cs s).clusterStatusControlPercent =
        (clusterCondOKCount shootControlPlaneHealthy cs : Int) * 100 / (cs.length : Int) ∧
      (clusterWidgetsUpdate f cs s).clusterStatusNodesPercent =
        (clusterCondOKCount shootEveryNodeReady cs : Int) * 100 / (cs.length : Int) ∧
      (clusterWidgetsUpdate f cs s).clusterStatusSystemPercent =
        (clusterCondOKCount shootSystemComponentsHealthy cs : Int) * 100 / (cs.length : Int) := by
    intro f cs s
    refine ⟨rfl, rfl, rfl, rfl⟩
  refine ⟨?_, ?_, ?_, ?_⟩
  · intro f s
    rfl
  · intro hm vs s hvs
    refine ⟨volumeChartsUpdate hm vs s, ?_,
      volumeChartsUpdate_physicalFreePercent hm vs s,
      volumeChartsUpdate_compressionRatioPercent hm vs s⟩
    simp [volumePaneRender, clusterInfoStep, hvs]
  · intro f cs s
    obtain ⟨h1, h2, h3, h4⟩ := hproj f cs s
    rw [h1, h2, h3, h4, gauge_int_cast, gauge_int_cast, gauge_int_cast, gauge_int_cast]
    refine ⟨Int.natCast_nonneg _, Int.natCast_nonneg _, Int.natCast_nonneg _,
      Int.natCast_nonneg _⟩
  · intro f cs s hnodup hne
    obtain ⟨h1, h2, h3, h4⟩ := hproj f cs s
    have hn : 0 < cs.length := Nat.pos_of_ne_zero hne
    rw [h1, h2, h3, h4, gauge_int_cast, gauge_int_cast, gauge_int_cast, gauge_int_cast]
    have hb : ∀ ty, ((clusterCondOKCount ty cs * 100 / cs.length : Nat) : Int) ≤ 100 := by
      intro ty
      have := gauge_nat_le_100 (clusterCondOKCount ty cs) cs.length
        (clusterCondOKCount_le_length ty cs hnodup) hn
      exact_mod_cast this
    exact ⟨hb _, hb _, hb _, hb _⟩

/-- Witness for the amended C5: empty fetches skip the gauges, the
duplicate-condition cluster still yields nonnegative gauges, and the C7
clusters (no duplicated condition types) respect the 100 bound. -/
theorem c5_gauge_witness :
    (clusterPaneRender id false (.ok []) clusterPaneState0 = .ok clusterPaneState0 none) ∧
    (∃ s', volumePaneRender toString false (.ok []) (.ok []) volumePaneState0 = .ok s' none ∧
      s'.physicalFreePercent = volumePaneState0.physicalFreePercent ∧
      s'.compressionRatioPercent = volumePaneState0.compressionRatioPercent) ∧
    (0 ≤ (clusterWidgetsUpdate id [c5DupCluster] clusterPaneState0).clusterStatusAPIPercent ∧
     0 ≤ (clusterWidgetsUpdate id [c5DupCluster] clusterPaneState0).clusterStatusControlPercent ∧
     0 ≤ (clusterWidgetsUpdate id [c5DupCluster] clusterPaneState0).clusterStatusNodesPercent ∧
     0 ≤ (clusterWidgetsUpdate id [c5DupCluster] clusterPaneState0).clusterStatusSystemPercent) ∧
    ((clusterWidgetsUpdate id c7Clusters clusterPaneState0).clusterStatusAPIPercent ≤ 100 ∧
     (clusterWidgetsUpdate id c7Clusters clusterPaneState0).clusterStatusControlPercent ≤ 100 ∧
     (clusterWidgetsUpdate id c7Clusters clusterPaneState0).clusterStatusNodesPercent ≤ 100 ∧
     (clusterWidgetsUpdate id c7Clusters clusterPaneState0).clusterStatusSystemPercent ≤ 100) :=
  ⟨c5_gauge_bounds.1 id clusterPaneState0,
   c5_gauge_bounds.2.1 toString [] volumePaneState0 rfl,
   c5_gauge_bounds.2.2.1 id [c5DupCluster] clusterPaneState0,
   c5_gauge_bounds.2.2.2 id c7Clusters clusterPaneState0
     (by
       intro c hc
       simp only [c7Clusters, c7Cluster, List.mem_cons, List.not_mem_nil, or_false] at hc
       rcases hc with hc | hc | hc <;> (obtain rfl := Option.some.inj hc; decide))
     (by decide)⟩

/-! ### Claim C8: controller render robustness -/

def dashConfig0 : DashConfig :=
  { filterTenant := "t1", filterPartition := "p1", filterPurpose := "" }

def dashState0 : DashHeaderState := { filterHeaderText := "", statusHeaderText := "" }

/-- A syntactically successful version response whose schema-required
`Version` field is absent (the generated client does not validate response
payloads, so this response shape reaches the dashboard). -/
def c8BadEnv : DashEnv :=
  { versionInfo := .ok { Payload := some { Version := none } }
    healthCall := .ok { Payload := some { Status := some healthStatusHealthy,
                                          Message := some "" } }
    paneOutcome := .ret none
    now := "12:00:00" }

/-- C8 counterexample: on a success version response with a missing required
`Version` field, `dashboard.Render` dereferences nil and panics
(`*infoResp.Payload.Version`), terminating the event loop — though the
deferred status redraw still runs with its timestamp. -/
theorem c8_malformed_panic_counterexample :
    (dashboardRender dashConfig0 false c8BadEnv dashState0).isPanic = true ∧
    (dashboardRender dashConfig0 false c8BadEnv dashState0).stateOf.statusHeaderText
      = mkStatusHeaderText "unknown" "unknown" "" none "12:00:00" :=
  ⟨rfl, rfl⟩

/-- Well-formedness of the version response: either an error, or a success
payload carrying its required `Version` field. -/
def VersionRespWF : Except GoErr VersionInfoOK → Prop
  | .error _ => True
  | .ok r => ∃ p v, r.Payload = some p ∧ p.Version = some v

/-- A present health payload with both of its required fields. -/
def HealthPayloadWF : Option RestHealthResponse → Prop
  | none => False
  | some hp => ∃ st m, hp.Status = some st ∧ hp.Message = some m

/-- Well-formedness of the health response: a success or tolerated
internal-server-error carries a well-formed payload; any other error is
fine. -/
def HealthRespWF : Except HealthCallErr HealthOK → Prop
  | .ok h => HealthPayloadWF h.Payload
  | .error (.internalServerError p) => HealthPayloadWF p
  | .error (.otherErr _) => True

/-- The error value the render cycle captures into `lastErr`: the version
call's error if it failed, else a non-tolerated health error, else whatever
the active pane returned. -/
def envLastErr (env : DashEnv) : Option GoErr :=
  match env.versionInfo with
  | .error e => some e
  | .ok _ =>
    match env.healthCall with
    | .error (.otherErr e) => some e
    | _ =>
      match env.paneOutcome with
      | .ret e => e
      | .panics => none

/-- C8 (amended): for every API response whose success payloads carry their
required fields, and for every API/network error, and whenever the active
pane returns rather than panics, `dashboard.Render` does not panic; errors
are captured and surfaced only as text in the status line, which is always
redrawn with the cycle's timestamp and exactly the captured error.  (A
success payload with a missing required field panics instead — see the
counterexample.) -/
theorem c8_render_robust (cfg : DashConfig) (env : DashEnv) (s : DashHeaderState)
    (hv : VersionRespWF env.versionInfo) (hh : HealthRespWF env.healthCall)
    (hp : env.paneOutcome ≠ .panics) :
    ∃ s', dashboardRender cfg false env s = .ok s' ∧
      s'.filterHeaderText = mkFilterHeaderText cfg ∧
      ∃ av ah am, s'.statusHeaderText
        = mkStatusHeaderText av ah am (envLastErr env) env.now := by
  obtain ⟨vi, hcall, po, now⟩ := env
  rcases vi with e | r
  · exact ⟨_, rfl, rfl, "unknown", "unknown", "", rfl⟩
  · obtain ⟨rp⟩ := r
    obtain ⟨p, v, hpay, hver⟩ := hv
    subst hpay
    obtain ⟨pv⟩ := p
    simp only at hver
    subst hver
    rcases hcall with he | h
    · rcases he with hpopt | e2
      · rcases hpopt with _ | hp2
        · exact absurd hh (by simp [HealthRespWF, HealthPayloadWF])
        · obtain ⟨hst, hmsg⟩ := hp2
          obtain ⟨st, m, h1, h2⟩ := hh
          simp only at h1 h2
          subst h1
          subst h2
          rcases po with e3 | _
          · exact ⟨_, rfl, rfl, v, st, m, rfl⟩
          · exact absurd rfl hp
      · exact ⟨_, rfl, rfl, v, "unknown", "", rfl⟩
    · obtain ⟨hpopt⟩ := h
      rcases hpopt with _ | hp2
      · exact absurd hh (by simp [HealthRespWF, HealthPayloadWF])
      · obtain ⟨hst, hmsg⟩ := hp2
        obtain ⟨st, m, h1, h2⟩ := hh
        simp only at h1 h2
        subst h1
        subst h2
        rcases po with e3 | _
        · exact ⟨_, rfl, rfl, v, st, m, rfl⟩
        · exact absurd rfl hp

/-- A fully well-formed environment with an unhealthy pane outcome: the
fetch error is surfaced in the status line next to the timestamp. -/
def c8GoodEnv : DashEnv :=
  { versionInfo := .ok { Payload := some { Version := some "v1.2.3" } }
    healthCall := .ok { Payload := some { Status := some healthStatusHealthy,
                                          Message := some "" } }
    paneOutcome := .ret (some (.simple "fetch failed"))
    now := "13:37:00" }

/-- Witness for the amended C8 at a concrete well-formed environment whose
pane reports a fetch error. -/
theorem c8_render_witness :
    ∃ s', dashboardRender dashConfig0 false c8GoodEnv dashState0 = .ok s' ∧
      s'.filterHeaderText = mkFilterHeaderText dashConfig0 ∧
      ∃ av ah am, s'.statusHeaderText
        = mkStatusHeaderText av ah am (envLastErr c8GoodEnv) c8GoodEnv.now :=
  c8_render_robust dashConfig0 c8GoodEnv dashState0
    ⟨{ Version := some "v1.2.3" }, "v1.2.3", rfl, rfl⟩
    ⟨"healthy", "", rfl, rfl⟩
    (by simp [c8GoodEnv])

/-! ### Claim C10: tab index invariant -/

/-- C10: after every event processed by the loop the active tab index stays
in `[0, N-1]`; only the numeric keys `"1"`..`"N"` change it (to the digit
minus one), all other keys and ticks leave it unchanged; and an initial-tab
name matching no tab makes `NewDashboard` fail with an error, while every
successful construction starts with an in-range index. -/
theorem c10_tab_invariant :
    (∀ (idx i2 : Int) (e : UiEvent), 0 ≤ idx → idx < (dashboardTabCount : Int) →
      dashboardLoopStep dashboardTabCount idx e = .cont i2 →
      0 ≤ i2 ∧ i2 < (dashboardTabCount : Int)) ∧
    (∀ idx : Int,
      dashboardLoopStep dashboardTabCount idx (.uiKey "1") = .cont 0 ∧
      dashboardLoopStep dashboardTabCount idx (.uiKey "2") = .cont 1) ∧
    (∀ (idx : Int) (id : String),
      (panelNumbers dashboardTabCount).contains id = false →
      id ≠ "q" → id ≠ "<C-c>" →
      dashboardLoopStep dashboardTabCount idx (.uiKey id) = .cont idx) ∧
    (∀ idx : Int, dashboardLoopStep dashboardTabCount idx .tick = .cont idx) ∧
    (∀ args : NewDashboardArgs, args.initialTabSet = true →
      (∀ nm ∈ dashboardTabNames, strEqualFold nm args.initialTab = false) →
      ∃ msg, newDashboard args = .error msg) ∧
    (∀ (args : NewDashboardArgs) (i : Int), newDashboard args = .ok i →
      0 ≤ i ∧ i < (dashboardTabCount : Int)) := by
  have hpn : panelNumbers dashboardTabCount = ["1", "2"] := rfl
  refine ⟨?_, ?_, ?_, ?_, ?_, ?_⟩
  · intro idx i2 e h0 hn hstep
    cases e with
    | tick =>
      simp only [dashboardLoopStep] at hstep
      cases hstep
      exact ⟨h0, hn⟩
    | uiKey id =>
      simp only [dashboardLoopStep] at hstep
      by_cases hq : (id == "q" || id == "<C-c>") = true
      · rw [if_pos hq] at hstep
        cases hstep
      · rw [if_neg hq] at hstep
        by_cases hr : (id == "<Resize>") = true
        · rw [if_pos hr] at hstep
          cases hstep
          exact ⟨h0, hn⟩
        · rw [if_neg hr] at hstep
          by_cases hc : ((panelNumbers dashboardTabCount).contains id) = true
          · rw [if_pos hc] at hstep
            cases hstep
            have hid : id = "1" ∨ id = "2" := by
              rw [hpn] at hc
              by_cases h1 : id = "1"
              · exact Or.inl h1
              · by_cases h2 : id = "2"
                · exact Or.inr h2
                · simp [h1, h2] at hc
            rcases hid with rfl | rfl
            · exact ⟨by decide, by decide⟩
            · exact ⟨by decide, by decide⟩
          · rw [if_neg hc] at hstep
            cases hstep
            exact ⟨h0, hn⟩
  · intro idx
    exact ⟨rfl, rfl⟩
  · intro idx id hc hq hcc
    simp only [dashboardLoopStep]
    rw [if_neg (by simp [hq, hcc])]
    by_cases hr : (id == "<Resize>") = true
    · rw [if_pos hr]
    · rw [if_neg hr]
      rw [if_neg (by rw [hc]; simp)]
  · intro idx
    rfl
  · intro args hset hnm
    unfold newDashboard
    cases htheme : dashboardApplyTheme args.colorTheme with
    | error e => exact ⟨e, rfl⟩
    | ok u =>
      rw [if_pos hset]
      have hfind : dashboardTabNames.findIdx?
          (fun n => strEqualFold n args.initialTab) = none := by
        rw [List.findIdx?_eq_none_iff]
        intro nm hnm2
        simp [hnm nm hnm2]
      unfold findIndexByName
      rw [hfind]
      exact ⟨_, rfl⟩
  · intro args i hok
    unfold newDashboard at hok
    cases htheme : dashboardApplyTheme args.colorTheme with
    | error e =>
      rw [htheme] at hok
      cases hok
    | ok u =>
      rw [htheme] at hok
      by_cases hset : args.initialTabSet = true
      · rw [if_pos hset] at hok
        cases hfd : findIndexByName dashboardTabNames args.initialTab with
        | error e =>
          rw [hfd] at hok
          cases hok
        | ok j =>
          rw [hfd] at hok
          cases hok
          have hj : j < dashboardTabNames.length := by
            unfold findIndexByName at hfd
            cases hidx : dashboardTabNames.findIdx?
                (fun n => strEqualFold n args.initialTab) with
            | none =>
              rw [hidx] at hfd
              cases hfd
            | some k =>
              rw [hidx] at hfd
              cases hfd
              exact (List.findIdx?_eq_some_iff_findIdx_eq.mp hidx).1
          exact ⟨Int.natCast_nonneg j, by exact_mod_cast hj⟩
      · rw [if_neg hset] at hok
        cases hok
        exact ⟨by decide, by decide⟩

/-- Construction arguments with an initial-tab name matching no tab. -/
def c10BadArgs : NewDashboardArgs :=
  { colorTheme := "default", initialTabSet := true, initialTab := "nonexistent" }

/-- Construction arguments selecting the volume tab case-insensitively. -/
def c10GoodArgs : NewDashboardArgs :=
  { colorTheme := "default", initialTabSet := true, initialTab := "volumes" }

/-- Witness for C10 at concrete inputs: a tick and the `"2"` key from index
0, an ignored key, and construction with a nonexistent initial tab name. -/
theorem c10_witness :
    (0 ≤ (0 : Int) ∧ (0 : Int) < (dashboardTabCount : Int)) ∧
    dashboardLoopStep dashboardTabCount 0 (.uiKey "2") = .cont 1 ∧
    dashboardLoopStep dashboardTabCount 0 (.uiKey "x") = .cont 0 ∧
    dashboardLoopStep dashboardTabCount 0 .tick = .cont 0 ∧
    (∃ msg, newDashboard c10BadArgs = .error msg) ∧
    (0 ≤ (1 : Int) ∧ (1 : Int) < (dashboardTabCount : Int)) :=
  ⟨c10_tab_invariant.1 0 0 .tick (by decide) (by decide) rfl,
   (c10_tab_invariant.2.1 0).2,
   c10_tab_invariant.2.2.1 0 "x" rfl (by decide) (by decide),
   c10_tab_invariant.2.2.2.1 0,
   c10_tab_invariant.2.2.2.2.1 c10BadArgs rfl (by decide),
   c10_tab_invariant.2.2.2.2.2 c10GoodArgs 1 (by rfl)⟩
